import Mathlib

/-!
# Verification of the Python-RL simulation core

A shallow embedding, in Lean, of the turn-based dungeon-crawler core found in
the repository (actions, fighter/combat, status effects, zones, AI spawn
placement, and the per-turn engine orchestration), together with theorems
settling the frozen claims about it.

Python integers are modelled as `Int` (they are unbounded); Python `//` is
`Int.fdiv` (floor division).  `random.randint` calls draw successive values
from an explicit stream `rng : Nat → Int`; range constraints such as
`1 ≤ roll ≤ 100` appear as hypotheses where a claim depends on them.  The
exception `exceptions.Impossible(msg)` is modelled as `Except.error msg`
(every action in the source raises it before mutating any state, so the
failing branch returns the unchanged engine).  The message log keeps the
message text only; colours/styles are presentation.
-/

namespace PyRL

/-- render_order.py: the draw-layer enumeration. -/
inductive RenderOrder
  | corpse
  | zoneLayer
  | item
  | actorLayer
deriving DecidableEq, Repr

/-- The concrete StatusEffect subclasses in status_effect.py. -/
inductive EffectKind
  | poisoned
  | bleeding
  | spored
deriving DecidableEq, Repr

/-- The `name` each subclass passes to `StatusEffect.__init__`. -/
def EffectKind.effName : EffectKind → String
  | .poisoned => "Poisoned"
  | .bleeding => "Bleeding"
  | .spored => "full of spores"

/-- status_effect.py: kind tag, remaining `duration`, magnitude `value`.
`last_pos` is the extra field of `Bleeding.__init__` (initially `(0, 0)`);
it is carried on every effect record and only the Bleeding tick touches it. -/
structure StatusEffect where
  kind : EffectKind
  duration : Int
  value : Int
  last_pos : Int × Int
deriving DecidableEq, Repr

/-- components/ai.py: the AI strategy attached to an actor.  `ConfusedEnemy`
wraps an `Optional[BaseAI]` previous strategy and a countdown; the optional
previous AI is encoded by the two constructors `confusedNone` (previous_ai is
None) and `confusedPrev` (previous_ai present). -/
inductive AIKind
  | hostile
  | spawner
  | zoneSpawner
  | invisiblePouncer
  | confusedNone (turns_remaining : Int)
  | confusedPrev (previous : AIKind) (turns_remaining : Int)
deriving DecidableEq, Repr

/-- Whether the strategy is a `ConfusedEnemy` (`isinstance(ai, ConfusedEnemy)`). -/
def AIKind.isConfused : AIKind → Bool
  | .confusedNone _ => true
  | .confusedPrev _ _ => true
  | _ => false

/-- components/equippable.py: the concrete Equippable subclasses. -/
inductive EquippableKind
  | pocketKinfe
  | oldKinfe
  | acidKinfe
  | sharpKinfe
  | professionalAcidKinfe
  | scrapChestPlate
  | ironChestPlate
  | spikeyChestPlate
  | steelChestPlate
  | steelPikeChestPlate
  | acidMetalChestPlate
deriving DecidableEq, Repr

/-- `power_bonus` each subclass passes to `Equippable.__init__`. -/
def EquippableKind.power_bonus : EquippableKind → Int
  | .pocketKinfe => 1
  | .oldKinfe => 2
  | .acidKinfe => 3
  | .sharpKinfe => 4
  | .professionalAcidKinfe => 5
  | _ => 0

/-- `defense_bonus` each subclass passes to `Equippable.__init__`. -/
def EquippableKind.defense_bonus : EquippableKind → Int
  | .scrapChestPlate => 1
  | .ironChestPlate => 2
  | .spikeyChestPlate => 2
  | .steelChestPlate => 3
  | .steelPikeChestPlate => 4
  | .acidMetalChestPlate => 5
  | _ => 0

/-- `dodge_bonus`: no equippable in the source sets it. -/
def EquippableKind.dodge_bonus : EquippableKind → Int
  | _ => 0

/-- Modelled from the spec: the Equipment collaborator (components/equipment.py
is not under src/).  It holds the optional weapon and armor slots and exposes
the summed stat bonuses that `Fighter.dodge_bonus`/`power_bonus`/
`defense_bonus` read through `self.parent.equipment`. -/
structure Equipment where
  weapon : Option EquippableKind
  armor : Option EquippableKind
deriving DecidableEq, Repr

def Equipment.power_bonus (eq : Equipment) : Int :=
  (match eq.weapon with | some w => w.power_bonus | none => 0)
    + (match eq.armor with | some a => a.power_bonus | none => 0)

def Equipment.defense_bonus (eq : Equipment) : Int :=
  (match eq.weapon with | some w => w.defense_bonus | none => 0)
    + (match eq.armor with | some a => a.defense_bonus | none => 0)

def Equipment.dodge_bonus (eq : Equipment) : Int :=
  (match eq.weapon with | some w => w.dodge_bonus | none => 0)
    + (match eq.armor with | some a => a.dodge_bonus | none => 0)

/-- components/fighter.py: the combatant component.  `hp` is the backing
field `_hp`; all writes in the source go through the clamping property
setter, modelled below as `Fighter.set_hp`. -/
structure Fighter where
  max_hp : Int
  hp : Int
  base_dodge : Int
  base_defence : Int
  base_power : Int
  status_effects : List StatusEffect
  immune_effects : List EffectKind
  last_actor_hurt_by : String
deriving DecidableEq, Repr

/-- `Fighter.__init__(hp, base_dodge, base_defence, base_power, immune_effects)`. -/
def Fighter.init (hp base_dodge base_defence base_power : Int)
    (immune_effects : List EffectKind) : Fighter :=
  { max_hp := hp
    hp := hp
    base_dodge := base_dodge
    base_defence := base_defence
    base_power := base_power
    status_effects := []
    immune_effects := immune_effects
    last_actor_hurt_by := "" }

/-- The actor-specific components of entity.py's `Actor`:  `ai` (`none` once
dead), the fighter, the optional equipment collaborator, and the
`level.xp_given` of the XP reward (components/level.py is not under src/;
per the spec the level component only contributes the experience amount). -/
structure ActorData where
  fighter : Fighter
  ai : Option AIKind
  equipment : Option Equipment
  xp_given : Int
deriving DecidableEq, Repr

/-- components/zone.py: the concrete ZoneComponent subclasses (gas kinds). -/
inductive GasKind
  | hydrogenSulfide
  | nitrousOxide
  | sporeAir
deriving DecidableEq, Repr

/-- entity.py `Zone`: duration / permanence / random-walk flag and the bound
zone behaviour. -/
structure ZoneData where
  duration : Int
  is_permanent : Bool
  moves_around : Bool
  gas : GasKind
deriving DecidableEq, Repr

/-- Which entity.py subclass an entity is, with its subclass-specific data. -/
inductive EntityKind
  | actorE (a : ActorData)
  | npc
  | item
  | zoneE (z : ZoneData)
deriving DecidableEq, Repr

/-- entity.py `Entity`: the shared fields.  `eid` stands for Python object
identity (`is` comparisons). -/
structure Entity where
  eid : Nat
  x : Int
  y : Int
  char : String
  color : Int × Int × Int
  name : String
  internal_name : String
  blocks_movement : Bool
  render_order : RenderOrder
  inspect_message : String
  is_swarm : Bool
  last_position : Int × Int
  kind : EntityKind
deriving DecidableEq, Repr

/-- The engine plus the parts of its collaborators the core touches:
the map (entity set, bounds, walkability, visibility), the game world
(credits, player confusion counter), the player's accumulated XP
(the observable of `Level.add_xp`, level.py not being under src/),
the message log (texts only) and the random stream. -/
structure Engine where
  entities : List Entity
  player_id : Nat
  width : Int
  height : Int
  walkable : Int → Int → Bool
  visible : Int → Int → Bool
  explored : Int → Int → Bool
  credits : Int
  player_xp : Int
  player_confused_turns : Int
  future_event_handler : Option Nat
  log : List String
  rng : Nat → Int
  rngIdx : Nat
  next_id : Nat

/-! ## Basic queries and update helpers -/

/-- Is this entity an `Actor` instance? -/
def Entity.is_actor (ent : Entity) : Bool :=
  match ent.kind with
  | .actorE _ => true
  | _ => false

/-- The actor components, when the entity is an `Actor`. -/
def Entity.actorData (ent : Entity) : Option ActorData :=
  match ent.kind with
  | .actorE a => some a
  | _ => none

/-- entity.py `Actor.is_alive`: `bool(self.ai)`. -/
def Entity.is_alive (ent : Entity) : Bool :=
  match ent.kind with
  | .actorE a => a.ai.isSome
  | _ => false

/-- Is this entity an `NPC` instance? -/
def Entity.is_npc (ent : Entity) : Bool :=
  match ent.kind with
  | .npc => true
  | _ => false

/-- The zone components, when the entity is a `Zone`. -/
def Entity.zoneData (ent : Entity) : Option ZoneData :=
  match ent.kind with
  | .zoneE z => some z
  | _ => none

/-- Rewrite the actor components in place (no-op on non-actors); every
mutation of `self.parent.ai` / `self.fighter` factors through this. -/
def Entity.mapActor (f : ActorData → ActorData) (ent : Entity) : Entity :=
  match ent.kind with
  | .actorE a => { ent with kind := .actorE (f a) }
  | _ => ent

/-- Rewrite the zone components in place (no-op on non-zones). -/
def Entity.mapZone (f : ZoneData → ZoneData) (ent : Entity) : Entity :=
  match ent.kind with
  | .zoneE z => { ent with kind := .zoneE (f z) }
  | _ => ent

/-- entity.py `Entity.move`: record `last_position`, then displace. -/
def Entity.move (ent : Entity) (dx dy : Int) : Entity :=
  { ent with last_position := (ent.x, ent.y), x := ent.x + dx, y := ent.y + dy }

/-- Look an entity up by identity. -/
def Engine.getEntity (e : Engine) (id : Nat) : Option Entity :=
  e.entities.find? (fun ent => ent.eid == id)

/-- Mutate the entity with the given identity in place. -/
def Engine.setEntity (e : Engine) (id : Nat) (f : Entity → Entity) : Engine :=
  { e with entities := e.entities.map (fun ent => if ent.eid == id then f ent else ent) }

/-- The fighter of the entity, when it is an actor. -/
def Engine.fighterOf (e : Engine) (id : Nat) : Option Fighter :=
  match e.getEntity id with
  | some ent => (ent.actorData).map (fun a => a.fighter)
  | none => none

/-- `entity.ai` (as data), when the entity is an actor. -/
def Engine.aiOf (e : Engine) (id : Nat) : Option AIKind :=
  match e.getEntity id with
  | some ent =>
    match ent.actorData with
    | some a => a.ai
    | none => none
  | none => none

/-- Whether the entity with this identity is a living actor. -/
def Engine.isAlive (e : Engine) (id : Nat) : Bool :=
  match e.getEntity id with
  | some ent => ent.is_alive
  | none => false

/-- `self.engine.player.internal_name` (empty when the player entity is
absent; theorems work with states that contain it). -/
def Engine.playerInternalName (e : Engine) : String :=
  match e.getEntity e.player_id with
  | some p => p.internal_name
  | none => ""

/-- message_log.py is not under src/; per the spec the log is a write-only
sink, modelled as the list of message texts. -/
def Engine.add_message (e : Engine) (m : String) : Engine :=
  { e with log := e.log ++ [m] }

/-- One `random.randint` draw: the next value of the stream. -/
def Engine.randint (e : Engine) : Int × Engine :=
  (e.rng e.rngIdx, { e with rngIdx := e.rngIdx + 1 })

/-- game_map.py `GameMap.in_bounds`. -/
def Engine.in_bounds (e : Engine) (x y : Int) : Bool :=
  0 ≤ x && x < e.width && 0 ≤ y && y < e.height

/-- game_map.py `GameMap.actors`: the living actors. -/
def Engine.actors (e : Engine) : List Entity :=
  e.entities.filter (fun ent => ent.is_actor && ent.is_alive)

/-- game_map.py `GameMap.NPCs`. -/
def Engine.NPCs (e : Engine) : List Entity :=
  e.entities.filter (fun ent => ent.is_npc)

/-- Modelled from the spec: the map's zone entities (the `GameMap.zones`
accessor iterated by `Engine.handle_zones` and `Zone.on_update` is not under
src/; like `actors`/`items` it yields the entities of that subclass). -/
def Engine.zones (e : Engine) : List Entity :=
  e.entities.filter (fun ent => (ent.zoneData).isSome)

/-- game_map.py `GameMap.get_blocking_entity_at_location`. -/
def Engine.get_blocking_entity_at_location (e : Engine) (x y : Int) : Option Entity :=
  e.entities.find? (fun ent => ent.blocks_movement && ent.x == x && ent.y == y)

/-- game_map.py `GameMap.get_actor_at_location`: searches living actors only. -/
def Engine.get_actor_at_location (e : Engine) (x y : Int) : Option Entity :=
  e.actors.find? (fun ent => ent.x == x && ent.y == y)

/-- game_map.py `GameMap.get_NPC_at_location`. -/
def Engine.get_NPC_at_location (e : Engine) (x y : Int) : Option Entity :=
  e.NPCs.find? (fun ent => ent.x == x && ent.y == y)

/-- Modelled from the spec: the map query `isWalkable(x, y)`
(`GameMap.is_walkable_tile` is not under src/): the walkability of the tile,
false out of bounds. -/
def Engine.is_walkable_tile (e : Engine) (x y : Int) : Bool :=
  e.in_bounds x y && e.walkable x y

/-- entity.py `Entity.spawn`: clone the template at the location (fresh
identity standing for the deep copy). -/
def Entity.spawn (template : Entity) (e : Engine) (x y : Int) (is_swarm : Bool) : Engine :=
  let clone := { template with eid := e.next_id, x := x, y := y, is_swarm := is_swarm }
  { e with entities := e.entities ++ [clone], next_id := e.next_id + 1 }

/-! ## Fighter: derived stats -/

/-- fighter.py `dodge_bonus`: equipment bonus, 0 with no equipment. -/
def ActorData.dodge_bonus (a : ActorData) : Int :=
  match a.equipment with
  | some eq => eq.dodge_bonus
  | none => 0

def ActorData.power_bonus (a : ActorData) : Int :=
  match a.equipment with
  | some eq => eq.power_bonus
  | none => 0

def ActorData.defense_bonus (a : ActorData) : Int :=
  match a.equipment with
  | some eq => eq.defense_bonus
  | none => 0

/-- fighter.py `dodge`: base plus equipment bonus. -/
def ActorData.dodge (a : ActorData) : Int :=
  a.fighter.base_dodge + a.dodge_bonus

def ActorData.power (a : ActorData) : Int :=
  a.fighter.base_power + a.power_bonus

def ActorData.defense (a : ActorData) : Int :=
  a.fighter.base_defence + a.defense_bonus

/-! ## Fighter: health mutation and death -/

/-- The corpse rewrite `die()` applies to its parent entity: re-glyph,
stop blocking, clear the AI, rename, clear the status effects. -/
def dieTransform (p : Entity) : Entity :=
  Entity.mapActor
    (fun a => { a with ai := none, fighter := { a.fighter with status_effects := [] } })
    { p with
        char := "%"
        color := (191, 0, 0)
        blocks_movement := false
        name := "Corpse of " ++ p.name
        render_order := .corpse
        inspect_message := "It\x27s a dead corpse." }

/-- fighter.py `Fighter.die` (the component's `id` is its parent entity).
Turns the parent into a corpse, clears the AI and the status effects, logs
the death, and runs the reward branch gated on `last_actor_hurt_by` matching
the player's `internal_name` and the parent not being a swarm spawn.
`Level.add_xp` (level.py, not under src/) is observed as `player_xp`. -/
def Fighter.die (e : Engine) (id : Nat) : Engine :=
  match e.getEntity id with
  | none => e
  | some ent =>
    let death_message := if id == e.player_id then "You died!" else ent.name ++ " died!"
    let e1 := e.setEntity id dieTransform
    let e2 := e1.add_message death_message
    match ent.actorData with
    | none => e2
    | some a =>
      if a.fighter.last_actor_hurt_by == e2.playerInternalName && !ent.is_swarm then
        let e3 := { e2 with player_xp := e2.player_xp + a.xp_given }
        let (roll, e4) := e3.randint
        if roll ≤ 45 then
          let amount := Int.fdiv a.fighter.max_hp 4
          let e5 := { e4 with credits := e4.credits + amount }
          e5.add_message ("You found " ++ toString amount ++ " credits!")
        else e4
      else e2

/-- fighter.py: the `hp` property setter.  Clamps the written value to
`[0, max_hp]` and calls `die()` when the stored HP is 0 while the parent
still has an AI. -/
def Fighter.set_hp (e : Engine) (id : Nat) (value : Int) : Engine :=
  match e.getEntity id with
  | none => e
  | some ent =>
    match ent.actorData with
    | none => e
    | some a =>
      let newHp := max 0 (min value a.fighter.max_hp)
      let e1 := e.setEntity id
        (Entity.mapActor (fun a2 => { a2 with fighter := { a2.fighter with hp := newHp } }))
      if newHp == 0 && a.ai.isSome then Fighter.die e1 id else e1

/-- fighter.py `Fighter.take_damage`: `self.hp -= amount`. -/
def Fighter.take_damage (e : Engine) (id : Nat) (amount : Int) : Engine :=
  match e.fighterOf id with
  | none => e
  | some f => Fighter.set_hp e id (f.hp - amount)

/-- fighter.py `Fighter.heal`: returns the amount recovered alongside the
new state; the write goes through the `hp` setter. -/
def Fighter.heal (e : Engine) (id : Nat) (amount : Int) : Int × Engine :=
  match e.fighterOf id with
  | none => (0, e)
  | some f =>
    if f.hp == f.max_hp then (0, e)
    else
      let new_hp_value := if f.hp + amount > f.max_hp then f.max_hp else f.hp + amount
      let amount_recovered := new_hp_value - f.hp
      (amount_recovered, Fighter.set_hp e id new_hp_value)

/-! ## Fighter: status effects -/

/-- The inner loop of `apply_status_effect`: find the first active effect
with the same `name`, add the new duration onto it.  `none` when no effect
of that kind is present. -/
def addDuration : List StatusEffect → StatusEffect → Option (List StatusEffect)
  | [], _ => none
  | s :: rest, eff =>
    if s.kind.effName == eff.kind.effName then
      some ({ s with duration := s.duration + eff.duration } :: rest)
    else
      match addDuration rest eff with
      | some l => some (s :: l)
      | none => none

/-- fighter.py `Fighter.apply_status_effect`: no-op when immune
(`isinstance` against the concrete effect classes, i.e. kind equality);
extend the duration of an already-present kind; otherwise append a deep copy
and log the notification. -/
def Fighter.apply_status_effect (e : Engine) (id : Nat) (effect : StatusEffect) : Engine :=
  match e.getEntity id with
  | none => e
  | some ent =>
    match ent.actorData with
    | none => e
    | some a =>
      if a.fighter.immune_effects.contains effect.kind then e
      else
        match addDuration a.fighter.status_effects effect with
        | some l1 =>
          e.setEntity id
            (Entity.mapActor (fun a2 => { a2 with fighter := { a2.fighter with status_effects := l1 } }))
        | none =>
          let e1 := e.setEntity id
            (Entity.mapActor (fun a2 =>
              { a2 with fighter :=
                  { a2.fighter with status_effects := a2.fighter.status_effects ++ [effect] } }))
          e1.add_message (ent.name ++ " is now " ++ effect.kind.effName ++ "!")

/-- The fighter's current status-effect list (empty when absent). -/
def statusListOf (e : Engine) (id : Nat) : List StatusEffect :=
  match e.fighterOf id with
  | some f => f.status_effects
  | none => []

/-- Overwrite the fighter's status-effect list. -/
def setStatusList (e : Engine) (id : Nat) (l : List StatusEffect) : Engine :=
  e.setEntity id
    (Entity.mapActor (fun a => { a with fighter := { a.fighter with status_effects := l } }))

/-- The entity's current display name (empty when absent). -/
def nameOf (e : Engine) (id : Nat) : String :=
  match e.getEntity id with
  | some ent => ent.name
  | none => ""

/-- entity_factories.py: the `baby_shroom` template spawned by a lethal
Spored tick (`eid` is the template slot; `spawn` assigns the clone a fresh
identity). -/
def baby_shroom : Entity :=
  { eid := 0
    x := 0
    y := 0
    char := "s"
    color := (255, 153, 0)
    name := "Baby Shroom"
    internal_name := "baby_shroom"
    blocks_movement := true
    render_order := .actorLayer
    inspect_message := "It\x27s a small walking fungi with a orange cap. It appears to be part of a great linage of mushrooms. It\x27s very cute, but it\x27s also very dangerous."
    is_swarm := false
    last_position := (0, 0)
    kind := .actorE
      { fighter := Fighter.init 20 0 3 4 [.spored]
        ai := some .hostile
        equipment := some { weapon := none, armor := none }
        xp_given := 100 } }

/-- The placement retry loop of `Spored.on_tick`: Python re-picks while the
position is neither blocked nor walkable, reading `parent.x` for **both**
coordinates of the new pick (sic, status_effect.py line 82).  The Python
loop has no iteration bound, so it is modelled with fuel; on exhaustion the
current position is returned (executions where Python would not terminate). -/
def sporedPickLoop (e : Engine) (px : Int) (pos : Int × Int) : Nat → (Int × Int) × Engine
  | 0 => (pos, e)
  | Nat.succ fuel =>
    if !(e.get_blocking_entity_at_location pos.1 pos.2).isSome
        && !(e.is_walkable_tile pos.1 pos.2) then
      let (r1, e1) := e.randint
      let (r2, e2) := e1.randint
      sporedPickLoop e2 px (px + r1, px + r2) fuel
    else (pos, e)

/-- status_effect.py: `on_tick(self, parent, engine)` per concrete subclass.
Returns the updated engine together with the mutated effect object (its
decremented `duration`, and for Bleeding its recorded `last_pos`). -/
def StatusEffect.on_tick (eff : StatusEffect) (id : Nat) (e : Engine) : Engine × StatusEffect :=
  match eff.kind with
  | .poisoned =>
    (Fighter.take_damage e id eff.value, { eff with duration := eff.duration - 1 })
  | .bleeding =>
    match e.getEntity id with
    | none => (e, { eff with duration := eff.duration - 1 })
    | some ent =>
      let eff1 := { eff with last_pos := ent.last_position }
      let e1 :=
        if ent.last_position ≠ (ent.x, ent.y) then Fighter.take_damage e id eff1.value else e
      (e1, { eff1 with duration := eff1.duration - 1 })
  | .spored =>
    match e.getEntity id with
    | none => (e, { eff with duration := eff.duration - 1 })
    | some ent =>
      let old_name := ent.name
      let e1 := Fighter.take_damage e id eff.value
      match e1.fighterOf id with
      | none => (e1, { eff with duration := eff.duration - 1 })
      | some f =>
        if f.hp ≤ 0 then
          let (r1, e2) := e1.randint
          let (r2, e3) := e2.randint
          let p := sporedPickLoop e3 ent.x (ent.x + r1, ent.y + r2) 1000
          let e4 := Entity.spawn baby_shroom p.2 p.1.1 p.1.2 false
          let e5 := e4.add_message
            ("A baby shroom bursts right open from " ++ old_name ++ "\x27s body!")
          (e5, { eff with duration := eff.duration - 1 })
        else (e1, { eff with duration := eff.duration - 1 })

/-- fighter.py `Fighter.update_status_effects`, mirroring Python's `for`
over the very list it removes from: the loop walks `iter` by index; removing
the current element shifts the tail left so the next element is skipped; and
when `die()` fires during a tick it rebinds `self.status_effects` to a fresh
empty list, detaching it from the iterator (`attached` tracks this), after
which the membership test `status_effect in self.status_effects` fails and
nothing more is removed or written back. -/
def updateEffectsGo (id : Nat) (e : Engine) (iter : List StatusEffect) (i : Nat)
    (attached : Bool) : Nat → Engine
  | 0 => e
  | Nat.succ fuel =>
    if h : i < iter.length then
      let eff := iter.get ⟨i, h⟩
      let aliveBefore := e.isAlive id
      let p := StatusEffect.on_tick eff id e
      let attached1 := attached && !(aliveBefore && !(p.1.isAlive id))
      let iter1 := iter.set i p.2
      let e2 := if attached1 then setStatusList p.1 id iter1 else p.1
      if p.2.duration ≤ 0 && (statusListOf e2 id).contains p.2 then
        let iter2 := iter1.eraseIdx i
        let e3 := if attached1 then setStatusList e2 id iter2 else e2
        let e4 := e3.add_message (nameOf e3 id ++ " is no longer " ++ p.2.kind.effName ++ ".")
        updateEffectsGo id e4 iter2 (i + 1) attached1 fuel
      else
        updateEffectsGo id e2 iter1 (i + 1) attached1 fuel
    else e

/-- fighter.py `Fighter.update_status_effects`.  The structural fuel
`iter.length` bounds the loop: the iterator index rises by one per step
while the list never grows, so the fuel-0 branch is unreachable. -/
def Fighter.update_status_effects (e : Engine) (id : Nat) : Engine :=
  updateEffectsGo id e (statusListOf e id) 0 true (statusListOf e id).length

/-! ## Actions -/

/-- Python `str.capitalize()`: first character upper-cased, the rest
lower-cased. -/
def pyCapitalize (s : String) : String :=
  match s.toList with
  | [] => ""
  | c :: cs => String.mk (c.toUpper :: cs.map Char.toLower)

/-- equippable.py: the weapon `on_attack` hooks (applied to the defender). -/
def EquippableKind.on_attack (k : EquippableKind) (e : Engine) (targetId : Nat) : Engine :=
  match k with
  | .acidKinfe => Fighter.apply_status_effect e targetId ⟨.poisoned, 6, 1, (0, 0)⟩
  | .professionalAcidKinfe => Fighter.apply_status_effect e targetId ⟨.poisoned, 8, 2, (0, 0)⟩
  | _ => e

/-- equippable.py: the armor `on_hit` hooks (applied back to the attacker). -/
def EquippableKind.on_hit (k : EquippableKind) (e : Engine) (targetId : Nat) (damage : Int) : Engine :=
  match k with
  | .spikeyChestPlate =>
    let e1 := Fighter.apply_status_effect e targetId ⟨.bleeding, 6, Int.fdiv damage 2, (0, 0)⟩
    Fighter.take_damage e1 targetId 2
  | .steelPikeChestPlate =>
    let e1 := Fighter.apply_status_effect e targetId ⟨.bleeding, 6, Int.fdiv damage 2, (0, 0)⟩
    Fighter.take_damage e1 targetId 4
  | .acidMetalChestPlate => Fighter.apply_status_effect e targetId ⟨.poisoned, 6, 2, (0, 0)⟩
  | _ => e

/-- actions.py lines 121-123: `if self.entity.equipment and
self.entity.equipment.weapon: ...on_attack(target)`. -/
def weaponHookApply (attackerEquip : Option Equipment) (e : Engine) (targetId : Nat) : Engine :=
  match attackerEquip with
  | some eq =>
    match eq.weapon with
    | some w => w.on_attack e targetId
    | none => e
  | none => e

/-- actions.py lines 125-127: `if target.equipment and target.equipment.armor:
...on_hit(self.entity, damage)`. -/
def armorHookApply (targetEquip : Option Equipment) (e : Engine) (attackerId : Nat)
    (damage : Int) : Engine :=
  match targetEquip with
  | some eq =>
    match eq.armor with
    | some ar => ar.on_hit e attackerId damage
    | none => e
  | none => e

/-- actions.py `MeleeAction.perform`, from the damage computation on (the
part after the dodge check has failed).  Stat and equipment snapshots are
the values read at that point in the source. -/
def MeleeAction.resolve_hit (e : Engine) (attackerId targetId : Nat)
    (attackerName targetName : String) (power defense : Int)
    (attackerEquip targetEquip : Option Equipment) (effect : Option StatusEffect) : Engine :=
  let damage := power - defense
  let attack_desc := pyCapitalize attackerName ++ " attacks " ++ pyCapitalize targetName
  if damage > 0 then
    let e1 := e.add_message (attack_desc ++ " for " ++ toString damage ++ " hit points!")
    let e2 := Fighter.take_damage e1 targetId damage
    let e3 := weaponHookApply attackerEquip e2 targetId
    let e4 := armorHookApply targetEquip e3 attackerId damage
    match effect with
    | some eff => Fighter.apply_status_effect e4 targetId eff
    | none => e4
  else
    e.add_message (attack_desc ++ ", but does no damage.")

/-- actions.py `MeleeAction.perform`: fail when no living actor occupies the
destination; roll the dodge check (uniform in [1,100] in the source); a roll
at most the target's dodge fully negates the attack (message only);
otherwise resolve the hit. -/
def MeleeAction.perform (id : Nat) (dx dy : Int) (effect : Option StatusEffect)
    (e : Engine) : Except String Engine :=
  match e.getEntity id with
  | none => Except.ok e
  | some attacker =>
    match e.get_actor_at_location (attacker.x + dx) (attacker.y + dy) with
    | none => Except.error "Nothing to attack."
    | some target =>
      match target.actorData, attacker.actorData with
      | some tAd, some aAd =>
        let (roll, e1) := e.randint
        if roll ≤ tAd.dodge then
          Except.ok (e1.add_message (pyCapitalize attacker.name ++ " Tries to attack, but "
            ++ pyCapitalize target.name ++ " dodges the attack!"))
        else
          Except.ok (MeleeAction.resolve_hit e1 id target.eid attacker.name target.name
            aAd.power tAd.defense aAd.equipment tAd.equipment effect)
      | _, _ => Except.ok e

/-- actions.py `MovementAction.perform`: out-of-bounds, non-walkable and
blocked destinations are `Impossible`; otherwise move. -/
def MovementAction.perform (id : Nat) (dx dy : Int) (e : Engine) : Except String Engine :=
  match e.getEntity id with
  | none => Except.ok e
  | some ent =>
    let dest_x := ent.x + dx
    let dest_y := ent.y + dy
    if !e.in_bounds dest_x dest_y then
      Except.error "That way is blocked."
    else if !e.walkable dest_x dest_y then
      Except.error "That way is blocked."
    else if (e.get_blocking_entity_at_location dest_x dest_y).isSome then
      Except.error "There\x27s something blocking the way!"
    else
      Except.ok (e.setEntity id (fun p => p.move dx dy))

/-- actions.py `InteractNPCAction.perform`: yield the NPC's input handler to
the engine (`future_event_handler`, recorded as the NPC's identity) after
the interaction message, or fail. -/
def InteractNPCAction.perform (id : Nat) (dx dy : Int) (e : Engine) : Except String Engine :=
  match e.getEntity id with
  | none => Except.ok e
  | some ent =>
    match e.get_NPC_at_location (ent.x + dx) (ent.y + dy) with
    | some npcEnt =>
      let e1 := e.add_message ("You interact with the " ++ npcEnt.name ++ ".")
      Except.ok { e1 with future_event_handler := some npcEnt.eid }
    | none => Except.error "There\x27s nothing to interact with."

/-- actions.py `WaitAction.perform`: record the current position as
`last_position`. -/
def WaitAction.perform (id : Nat) (e : Engine) : Except String Engine :=
  Except.ok (e.setEntity id (fun p => { p with last_position := (p.x, p.y) }))

/-- Which sub-action `BumpAction.perform` dispatches to. -/
inductive BumpDispatch
  | attack
  | interact
  | move
deriving DecidableEq, Repr

/-- The three-way dispatch of actions.py `BumpAction.perform`: living
combatant at the destination, else NPC, else movement. -/
def BumpAction.dispatch (id : Nat) (dx dy : Int) (e : Engine) : BumpDispatch :=
  match e.getEntity id with
  | none => .move
  | some ent =>
    if (e.get_actor_at_location (ent.x + dx) (ent.y + dy)).isSome then .attack
    else if (e.get_NPC_at_location (ent.x + dx) (ent.y + dy)).isSome then .interact
    else .move

/-- actions.py `BumpAction.perform`: the attack and interact branches first
record `last_position`, then delegate. -/
def BumpAction.perform (id : Nat) (dx dy : Int) (e : Engine) : Except String Engine :=
  match e.getEntity id with
  | none => Except.ok e
  | some ent =>
    if (e.get_actor_at_location (ent.x + dx) (ent.y + dy)).isSome then
      let e1 := e.setEntity id (fun p => { p with last_position := (p.x, p.y) })
      MeleeAction.perform id dx dy none e1
    else if (e.get_NPC_at_location (ent.x + dx) (ent.y + dy)).isSome then
      let e1 := e.setEntity id (fun p => { p with last_position := (p.x, p.y) })
      InteractNPCAction.perform id dx dy e1
    else
      MovementAction.perform id dx dy e

/-! ## Spawner AI: placement -/

/-- ai.py `SpawnerEnemy.perform`, the placement `while` loop (lines
156-161): keep re-picking `(spawner ± randint(-3,3))` **while** the current
pick is out of bounds or `get_blocking_entity_at_location` returns nothing;
give up (wait) once the retry counter exceeds 10.  The structural fuel is
`11 - tries` at entry; because the loop stops once `tries + 1 > 10`, the
fuel-0 branch is unreachable. -/
def spawnTryLoop (e : Engine) (sx sy : Int) (xy : Int × Int) (tries : Nat) :
    Nat → Option (Int × Int) × Engine
  | 0 => (none, e)
  | Nat.succ fuel =>
    if e.in_bounds xy.1 xy.2 && (e.get_blocking_entity_at_location xy.1 xy.2).isSome then
      (some xy, e)
    else
      let (r1, e1) := e.randint
      let (r2, e2) := e1.randint
      if tries + 1 > 10 then (none, e2)
      else spawnTryLoop e2 sx sy (sx + r1, sy + r2) (tries + 1) fuel

/-- ai.py `SpawnerEnemy.perform`, lines 151-161: the initial random pick
followed by the retry loop.  `some xy` is the accepted spawn location;
`none` means the AI falls back to waiting. -/
def SpawnerEnemy.try_spawn_location (e : Engine) (sx sy : Int) : Option (Int × Int) × Engine :=
  let (r1, e1) := e.randint
  let (r2, e2) := e1.randint
  spawnTryLoop e2 sx sy (sx + r1, sy + r2) 0 11

/-- ai.py `SpawnerEnemy.perform`, lines 146-168: the whole spawn branch run
when the spawn timer has reached the spawn rate — find a location, then
spawn one clone of the template and log it, or do nothing (the AI then
waits).  The returned flag says whether a spawn happened. -/
def SpawnerEnemy.spawn_attempt (e : Engine) (spawnerId : Nat) (template : Entity) :
    Engine × Bool :=
  match e.getEntity spawnerId with
  | none => (e, false)
  | some sp =>
    match SpawnerEnemy.try_spawn_location e sp.x sp.y with
    | (some xy, e1) =>
      let e2 := Entity.spawn template e1 xy.1 xy.2 false
      (e2.add_message ("The " ++ sp.name ++ " spawned a new " ++ template.name ++ "!"), true)
    | (none, e1) => (e1, false)

/-! ## Zones -/

/-- components/zone.py: `on_actor_tick` per gas kind. -/
def ZoneComponent.on_actor_tick : GasKind → Engine → Nat → Engine
  | .hydrogenSulfide, e, actorId =>
    Fighter.apply_status_effect e actorId ⟨.poisoned, 7, 2, (0, 0)⟩
  | .nitrousOxide, e, actorId =>
    if actorId == e.player_id then { e with player_confused_turns := 10 }
    else
      match e.aiOf actorId with
      | some ai =>
        if !ai.isConfused then
          e.setEntity actorId
            (Entity.mapActor (fun a => { a with ai := some (.confusedPrev ai 10) }))
        else e
      | none => e
  | .sporeAir, e, actorId =>
    Fighter.apply_status_effect e actorId ⟨.spored, 15, 1, (0, 0)⟩

/-- entity.py `Zone.on_update`: the 8-direction list of the source. -/
def zoneDirs : List (Int × Int) :=
  [(-1, -1), (0, -1), (1, -1), (-1, 0), (1, 0), (-1, 1), (0, 1), (1, 1)]

/-- entity.py `Zone.on_update`: when `moves_around`, pick one of the 8
directions at random (`random.choice`, modelled as the next rng value mod 8
indexing the source's list) and move there when the tile is walkable and
holds no other zone. -/
def Zone.on_update (e : Engine) (zid : Nat) : Engine :=
  match e.getEntity zid with
  | none => e
  | some ent =>
    if (match ent.zoneData with | some z => z.moves_around | none => false) then
      let (r, e1) := e.randint
      let d := zoneDirs.getD (r % 8).toNat (0, 0)
      if e1.is_walkable_tile (ent.x + d.1) (ent.y + d.2) then
        if !(e1.zones.any (fun z2 => z2.x == ent.x + d.1 && z2.y == ent.y + d.2)) then
          e1.setEntity zid (fun p => p.move d.1 d.2)
        else e1
      else e1
    else e

/-- engine.py `handle_zones`, inner loop body: apply the zone's effect to
one co-located actor with positive HP. -/
def zoneActorStep (zid : Nat) (e : Engine) (aid : Nat) : Engine :=
  match e.getEntity zid, e.getEntity aid with
  | some z, some actor =>
    if z.x == actor.x && z.y == actor.y then
      match actor.actorData with
      | some a =>
        if a.fighter.hp > 0 then
          match z.zoneData with
          | some zd => ZoneComponent.on_actor_tick zd.gas e aid
          | none => e
        else e
      | none => e
    else e
  | _, _ => e

def zoneTickActorsGo (zid : Nat) (e : Engine) : List Nat → Engine
  | [] => e
  | aid :: rest => zoneTickActorsGo zid (zoneActorStep zid e aid) rest

/-- engine.py `handle_zones`: the `for actor in self.game_map.actors` loop
for one zone. -/
def zoneTickActors (e : Engine) (zid : Nat) : Engine :=
  zoneTickActorsGo zid e (e.actors.map (fun a => a.eid))

/-- engine.py `handle_zones`, body for one zone: `on_update`, the actor
loop, then (non-permanent only) decrement the duration and mark the zone
for removal at duration ≤ 0. -/
def zoneStep (e : Engine) (rem : List Nat) (zid : Nat) : Engine × List Nat :=
  let e1 := Zone.on_update e zid
  let e2 := zoneTickActors e1 zid
  match e2.getEntity zid with
  | some z =>
    match z.zoneData with
    | some zd =>
      if !zd.is_permanent then
        let e3 := e2.setEntity zid (Entity.mapZone (fun z2 => { z2 with duration := zd.duration - 1 }))
        if zd.duration - 1 ≤ 0 then (e3, rem ++ [zid]) else (e3, rem)
      else (e2, rem)
    | none => (e2, rem)
  | none => (e2, rem)

def zonesGo (e : Engine) (rem : List Nat) : List Nat → Engine × List Nat
  | [] => (e, rem)
  | zid :: rest => zonesGo (zoneStep e rem zid).1 (zoneStep e rem zid).2 rest

/-- engine.py `Engine.handle_zones`: tick every zone, deferring the removal
of the expired ones until after the iteration completes. -/
def Engine.handle_zones (e : Engine) : Engine :=
  let p := zonesGo e [] (e.zones.map (fun z => z.eid))
  { p.1 with entities := p.1.entities.filter (fun ent => !(p.2.contains ent.eid)) }

/-! ## Per-turn orchestration -/

/-- engine.py `Engine.handle_enemy_turns`, loop body list: each non-player
actor with an AI acts once; `Impossible` raised by the AI's action is
swallowed (`except exceptions.Impossible: pass`) with no log entry.  The
behaviour of each actor's AI strategy is the parameter `ai` (strategies
build on external pathfinding). -/
def enemyTurnsGo (ai : Nat → Engine → Except String Engine) (e : Engine) : List Nat → Engine
  | [] => e
  | id :: rest =>
    let e1 :=
      if e.isAlive id then
        match ai id e with
        | Except.ok e2 => e2
        | Except.error _ => e
      else e
    enemyTurnsGo ai e1 rest

/-- engine.py `Engine.handle_enemy_turns`: iterate over the living
non-player actors of the snapshot taken at entry. -/
def Engine.handle_enemy_turns (ai : Nat → Engine → Except String Engine) (e : Engine) : Engine :=
  enemyTurnsGo ai e ((e.actors.filter (fun a => a.eid != e.player_id)).map (fun a => a.eid))

def statusPhaseGo (e : Engine) : List Nat → Engine
  | [] => e
  | id :: rest => statusPhaseGo (Fighter.update_status_effects e id) rest

/-- engine.py `Engine.handle_status_effects`. -/
def Engine.handle_status_effects (e : Engine) : Engine :=
  statusPhaseGo e (e.actors.map (fun a => a.eid))

/-- engine.py `Engine.update_fov`: recompute visibility from the player's
position (the shadow-cast computation itself is the external tcod routine,
passed as `fov`) and accumulate it into `explored`. -/
def Engine.update_fov (fov : Int × Int → Int → Int → Bool) (e : Engine) : Engine :=
  match e.getEntity e.player_id with
  | some p =>
    { e with
        visible := fov (p.x, p.y)
        explored := fun x y => e.explored x y || fov (p.x, p.y) x y }
  | none => e

/-- input_handlers.py `EventHandler.handle_action`: a missing action does
nothing; an `Impossible` from the player's action is written to the log and
the turn is not consumed (phases 2-5 are skipped); otherwise the full
pipeline runs and the turn advances. -/
def EventHandler.handle_action (ai : Nat → Engine → Except String Engine)
    (fov : Int × Int → Int → Int → Bool) (e : Engine)
    (action : Option (Engine → Except String Engine)) : Bool × Engine :=
  match action with
  | none => (false, e)
  | some act =>
    match act e with
    | Except.error msg => (false, e.add_message msg)
    | Except.ok e1 =>
      (true, ((e1.handle_enemy_turns ai).handle_status_effects.handle_zones).update_fov fov)

/-! ## Concrete fixtures for witnesses -/

/-- A combatant in the style of the `slime_mold` factory entry. -/
def moldFighter : Fighter := Fighter.init 10 0 0 3 []

/-- The player's combatant, as in the `player` factory entry. -/
def playerFighter : Fighter := Fighter.init 30 5 1 2 []

/-- A concrete actor entity (fixture). -/
def mkActorEnt (id : Nat) (x y : Int) (nm internal : String) (f : Fighter)
    (ai : Option AIKind) : Entity :=
  { eid := id
    x := x
    y := y
    char := "@"
    color := (255, 255, 255)
    name := nm
    internal_name := internal
    blocks_movement := true
    render_order := .actorLayer
    inspect_message := ""
    is_swarm := false
    last_position := (x, y)
    kind := .actorE { fighter := f, ai := ai, equipment := some { weapon := none, armor := none }, xp_given := 35 } }

/-- A concrete NPC entity (fixture). -/
def mkNpcEnt (id : Nat) (x y : Int) (nm : String) : Entity :=
  { eid := id
    x := x
    y := y
    char := "S"
    color := (255, 255, 255)
    name := nm
    internal_name := nm
    blocks_movement := true
    render_order := .actorLayer
    inspect_message := ""
    is_swarm := false
    last_position := (x, y)
    kind := .npc }

/-- A concrete zone entity (fixture). -/
def mkZoneEnt (id : Nat) (x y : Int) (z : ZoneData) : Entity :=
  { eid := id
    x := x
    y := y
    char := "#"
    color := (0, 255, 0)
    name := "Gas"
    internal_name := "gas"
    blocks_movement := false
    render_order := .zoneLayer
    inspect_message := ""
    is_swarm := false
    last_position := (x, y)
    kind := .zoneE z }

/-- A concrete engine over a fully walkable, fully visible 10×10 map
(fixture); the random stream is a parameter. -/
def mkEngine (ents : List Entity) (pid : Nat) (rng : Nat → Int) : Engine :=
  { entities := ents
    player_id := pid
    width := 10
    height := 10
    walkable := fun _ _ => true
    visible := fun _ _ => true
    explored := fun _ _ => false
    credits := 0
    player_xp := 0
    player_confused_turns := 0
    future_event_handler := none
    log := []
    rng := rng
    rngIdx := 0
    next_id := 100 }

def E4player : Entity := mkActorEnt 0 0 0 "Player" "player" playerFighter (some .hostile)

def E4 : Engine :=
  mkEngine [E4player, mkActorEnt 1 1 0 "Slime Mold" "slime_mold" moldFighter (some .hostile)]
    0 (fun _ => 50)

def E6attacker : Entity := mkActorEnt 0 0 0 "Player" "player" playerFighter (some .hostile)

def E6target : Entity := mkActorEnt 1 1 0 "Slime Mold" "slime_mold" moldFighter (some .hostile)

def E6 : Engine := mkEngine [E6attacker, E6target] 0 (fun _ => 50)

def E6aAd : ActorData :=
  { fighter := playerFighter, ai := some .hostile
    equipment := some { weapon := none, armor := none }, xp_given := 35 }

def E6tAd : ActorData :=
  { fighter := moldFighter, ai := some .hostile
    equipment := some { weapon := none, armor := none }, xp_given := 35 }

def E5mold : Entity := mkActorEnt 1 1 0 "Slime Mold" "slime_mold" moldFighter (some .hostile)

def E5 : Engine :=
  mkEngine [mkActorEnt 0 0 0 "Player" "player" playerFighter (some .hostile), E5mold]
    0 (fun _ => 50)

def E5moldAd : ActorData :=
  { fighter := moldFighter, ai := some .hostile
    equipment := some { weapon := none, armor := none }, xp_given := 35 }

def poisonEff4 : StatusEffect := { kind := .poisoned, duration := 4, value := 1, last_pos := (0, 0) }

def poisonEff3 : StatusEffect := { kind := .poisoned, duration := 3, value := 1, last_pos := (0, 0) }

def E3mold : Entity := mkActorEnt 1 1 0 "Slime Mold" "slime_mold" moldFighter (some .hostile)

def E3 : Engine :=
  mkEngine [mkActorEnt 0 0 0 "Player" "player" playerFighter (some .hostile), E3mold]
    0 (fun _ => 50)

def E3deadMold : Entity :=
  mkActorEnt 1 1 0 "Slime Mold" "slime_mold" { moldFighter with hp := 0 } none

def E3dead : Engine :=
  mkEngine [mkActorEnt 0 0 0 "Player" "player" playerFighter (some .hostile), E3deadMold]
    0 (fun _ => 50)

def E3moldAd : ActorData :=
  { fighter := moldFighter, ai := some .hostile
    equipment := some { weapon := none, armor := none }, xp_given := 35 }

def E3deadMoldAd : ActorData :=
  { fighter := { moldFighter with hp := 0 }, ai := none
    equipment := some { weapon := none, armor := none }, xp_given := 35 }

/-- The recorded `last_actor_hurt_by` of the fighter owned by entity `j`. -/
def lastHurtOf (e : Engine) (j : Nat) : Option String :=
  (e.fighterOf j).map (fun f => f.last_actor_hurt_by)

def E1mold : Entity :=
  mkActorEnt 1 1 0 "Slime Mold" "slime_mold" { moldFighter with hp := 1 } (some .hostile)

def E1moldAd : ActorData :=
  { fighter := { moldFighter with hp := 1 }, ai := some .hostile
    equipment := some { weapon := none, armor := none }, xp_given := 35 }

def E1 : Engine :=
  mkEngine [mkActorEnt 0 0 0 "Player" "player" playerFighter (some .hostile), E1mold]
    0 (fun _ => 50)

/-- The state after the player's eastward melee attack in `E1`.  The attack
hits (roll 50 against dodge 0) for 2 damage against 1 HP, so the mold dies;
the error branch is never taken. -/
def E1kill : Engine :=
  match MeleeAction.perform 0 1 0 none E1 with
  | Except.ok e2 => e2
  | Except.error _ => E1

def E2spawner : Entity :=
  mkActorEnt 7 5 5 "Bloom Shroom" "bloom_shroom" moldFighter (some .spawner)

/-- Spawner at (5,5) on an otherwise empty 10×10 map; every tile of the
±3 neighborhood is in bounds, and all of them except the spawner's own
tile are unoccupied.  The random stream always picks offset (+1,+1). -/
def E2wait : Engine :=
  mkEngine [mkActorEnt 0 0 0 "Player" "player" playerFighter (some .hostile), E2spawner]
    0 (fun _ => 1)

/-- Same map, but the random stream always picks offset (0,0) — the
spawner's own (blocked) tile. -/
def E2hit : Engine :=
  mkEngine [mkActorEnt 0 0 0 "Player" "player" playerFighter (some .hostile), E2spawner]
    0 (fun _ => 0)

def bleedEff : StatusEffect := { kind := .bleeding, duration := 3, value := 1, last_pos := (0, 0) }

/-- A slime mold at (1,0) that moved last turn (its `last_position` is the
tile it came from). -/
def E9movedMold : Entity :=
  { mkActorEnt 1 1 0 "Slime Mold" "slime_mold" moldFighter (some .hostile) with
      last_position := (0, 0) }

def E9 : Engine :=
  mkEngine [mkActorEnt 0 0 5 "Player" "player" playerFighter (some .hostile), E9movedMold]
    0 (fun _ => 50)

/-- A dead slime mold (corpse): AI cleared, no longer blocking. -/
def E10corpse : Entity :=
  { mkActorEnt 1 1 0 "Corpse of Slime Mold" "slime_mold" { moldFighter with hp := 0 } none with
      blocks_movement := false }

def E10 : Engine :=
  mkEngine [mkActorEnt 0 0 0 "Player" "player" playerFighter (some .hostile), E10corpse]
    0 (fun _ => 50)

def E8 : Engine :=
  mkEngine [mkActorEnt 0 0 0 "Player" "player" playerFighter (some .hostile),
    mkActorEnt 1 5 5 "Slime Mold" "slime_mold" moldFighter (some .hostile)]
    0 (fun _ => 50)

/-- An AI behaviour whose action always raises Impossible (fixture). -/
def aiW : Nat → Engine → Except String Engine :=
  fun _ _ => Except.error "That way is blocked."

/-- A visibility computation (fixture for the external compute_fov). -/
def fovW : Int × Int → Int → Int → Bool := fun _ _ _ => true

/-- The zone components of the entity with the given identity — the
observable of C7 (duration, permanence, random-walk flag, gas kind). -/
def zoneView (e : Engine) (zid : Nat) : Option ZoneData :=
  (e.getEntity zid).bind Entity.zoneData

def E7zone : Entity :=
  mkZoneEnt 1 2 2
    { duration := 1, is_permanent := false, moves_around := false, gas := .hydrogenSulfide }

def E7 : Engine :=
  mkEngine [mkActorEnt 0 0 0 "Player" "player" playerFighter (some .hostile), E7zone,
    mkActorEnt 2 2 2 "Slime Mold" "slime_mold" moldFighter (some .hostile)]
    0 (fun _ => 50)

/-- A permanent-zone engine: a hydrogen-sulfide cloud at (4,4) with
`is_permanent = true`, away from the player. -/
def E7p : Engine :=
  mkEngine [mkActorEnt 0 0 0 "Player" "player" playerFighter (some .hostile),
    mkZoneEnt 1 4 4
      { duration := 5, is_permanent := true, moves_around := false, gas := .hydrogenSulfide }]
    0 (fun _ => 50)


/-! ## Infrastructure lemmas -/

theorem find?_map_pred {α : Type} (l : List α) (g : α → α) (p : α → Bool)
    (hp : ∀ x, p (g x) = p x) :
    (l.map g).find? p = (l.find? p).map g := by
  induction l with
  | nil => rfl
  | cons x xs ih =>
    by_cases h : p x = true
    · simp [List.find?_cons, hp, h]
    · simp only [Bool.not_eq_true] at h
      simp [List.find?_cons, hp, h, ih]

/-- Looking an entity up after an in-place mutation of another (or the
same) entity, provided the mutation preserves identity. -/
theorem getEntity_setEntity (e : Engine) (id : Nat) (f : Entity → Entity)
    (hf : ∀ ent, (f ent).eid = ent.eid) (j : Nat) :
    (e.setEntity id f).getEntity j =
      (e.getEntity j).map (fun ent => if ent.eid == id then f ent else ent) := by
  unfold Engine.setEntity Engine.getEntity
  simp only
  exact find?_map_pred e.entities _ _ (by
    intro x
    by_cases h : x.eid == id <;> simp [h, hf])

theorem getEntity_found_eid (e : Engine) (j : Nat) (ent : Entity)
    (h : e.getEntity j = some ent) : ent.eid = j := by
  unfold Engine.getEntity at h
  have := List.find?_some h
  simpa using this

@[simp]
theorem mapActor_eid (f : ActorData → ActorData) (ent : Entity) :
    (Entity.mapActor f ent).eid = ent.eid := by
  unfold Entity.mapActor
  cases h : ent.kind <;> simp

@[simp]
theorem mapActor_actorData (f : ActorData → ActorData) (ent : Entity) :
    (Entity.mapActor f ent).actorData = (ent.actorData).map f := by
  unfold Entity.mapActor Entity.actorData
  cases h : ent.kind <;> simp [h]

@[simp]
theorem mapZone_eid (f : ZoneData → ZoneData) (ent : Entity) :
    (Entity.mapZone f ent).eid = ent.eid := by
  unfold Entity.mapZone
  cases h : ent.kind <;> simp

@[simp]
theorem mapZone_zoneData (f : ZoneData → ZoneData) (ent : Entity) :
    (Entity.mapZone f ent).zoneData = (ent.zoneData).map f := by
  unfold Entity.mapZone Entity.zoneData
  cases h : ent.kind <;> simp [h]

/-- Reading any fighter after rewriting one entity's actor data in place. -/
theorem statusListOf_setEntity_mapActor (e : Engine) (id : Nat) (ent : Entity) (a : ActorData)
    (hent : e.getEntity id = some ent) (hAd : ent.actorData = some a)
    (g : ActorData → ActorData) :
    statusListOf (e.setEntity id (Entity.mapActor g)) id = (g a).fighter.status_effects := by
  have heid := getEntity_found_eid e id ent hent
  unfold statusListOf Engine.fighterOf
  rw [getEntity_setEntity e id _ (fun x => mapActor_eid g x) id]
  simp [hent, heid, hAd]

theorem statusListOf_add_message (e : Engine) (id : Nat) (m : String) :
    statusListOf (e.add_message m) id = statusListOf e id := rfl

theorem addDuration_none_of (l : List StatusEffect) (eff : StatusEffect)
    (h : ∀ s ∈ l, s.kind.effName ≠ eff.kind.effName) : addDuration l eff = none := by
  induction l with
  | nil => rfl
  | cons t ts ih =>
    have ht : t.kind.effName ≠ eff.kind.effName := h t (by simp)
    simp [addDuration, beq_eq_false_iff_ne.mpr ht, ih (fun u hu => h u (by simp [hu]))]

theorem addDuration_merge (l₁ : List StatusEffect) (s : StatusEffect) (l₂ : List StatusEffect)
    (eff : StatusEffect)
    (h₁ : ∀ t ∈ l₁, t.kind.effName ≠ eff.kind.effName)
    (hs : s.kind.effName = eff.kind.effName) :
    addDuration (l₁ ++ s :: l₂) eff
      = some (l₁ ++ { s with duration := s.duration + eff.duration } :: l₂) := by
  induction l₁ with
  | nil => simp [addDuration, hs]
  | cons t ts ih =>
    have ht : t.kind.effName ≠ eff.kind.effName := h₁ t (by simp)
    have ihh := ih (fun u hu => h₁ u (by simp [hu]))
    simp [addDuration, beq_eq_false_iff_ne.mpr ht, ihh]

theorem getEntity_congr {e1 e2 : Engine} (h : e1.entities = e2.entities) (j : Nat) :
    e1.getEntity j = e2.getEntity j := by
  unfold Engine.getEntity
  rw [h]

@[simp]
theorem dieTransform_eid (p : Entity) : (dieTransform p).eid = p.eid := by
  unfold dieTransform
  simp

@[simp]
theorem dieTransform_internal_name (p : Entity) :
    (dieTransform p).internal_name = p.internal_name := by
  unfold dieTransform Entity.mapActor
  cases h : p.kind <;> simp

theorem dieTransform_actorData (p : Entity) :
    (dieTransform p).actorData = (p.actorData).map
      (fun a => { a with ai := none, fighter := { a.fighter with status_effects := [] } }) := by
  unfold dieTransform
  rw [mapActor_actorData]
  rfl

theorem dieTransform_blocks (p : Entity) : (dieTransform p).blocks_movement = false := by
  unfold dieTransform Entity.mapActor
  cases h : p.kind <;> simp

theorem is_alive_actorData (ent : Entity) :
    ent.is_alive = ((ent.actorData).map (fun a => a.ai.isSome)).getD false := by
  unfold Entity.is_alive Entity.actorData
  cases h : ent.kind <;> simp

/-- Every branch of `die()` leaves the entity set as the single corpse
rewrite of its parent. -/
theorem die_entities (e : Engine) (id : Nat) (ent : Entity)
    (hent : e.getEntity id = some ent) :
    (Fighter.die e id).entities = (e.setEntity id dieTransform).entities := by
  unfold Fighter.die
  rw [hent]
  cases hAd : ent.actorData with
  | none => simp [hAd, Engine.add_message]
  | some a =>
    simp only [hAd, Engine.add_message, Engine.randint]
    simp [apply_ite Engine.entities]

theorem die_player_id (e : Engine) (id : Nat) (ent : Entity)
    (hent : e.getEntity id = some ent) :
    (Fighter.die e id).player_id = e.player_id := by
  unfold Fighter.die
  rw [hent]
  cases hAd : ent.actorData with
  | none => simp [hAd, Engine.add_message, Engine.setEntity]
  | some a =>
    simp only [hAd, Engine.add_message, Engine.randint]
    simp [apply_ite Engine.player_id, Engine.setEntity]

theorem playerInternalName_setEntity (e : Engine) (id : Nat) (f : Entity → Entity)
    (hf : ∀ ent, (f ent).eid = ent.eid)
    (hin : ∀ ent, (f ent).internal_name = ent.internal_name) :
    (e.setEntity id f).playerInternalName = e.playerInternalName := by
  unfold Engine.playerInternalName
  rw [getEntity_setEntity e id f hf]
  simp only [Engine.setEntity]
  cases h : e.getEntity e.player_id with
  | none => simp [h]
  | some p =>
    by_cases hp : p.eid = id <;> simp [h, hp, hin]

theorem playerInternalName_add_message (e : Engine) (m : String) :
    (e.add_message m).playerInternalName = e.playerInternalName := rfl

/-- The identity-lookup after `die()`: the parent entity is its corpse
rewrite. -/
theorem getEntity_die (e : Engine) (id : Nat) (ent : Entity)
    (hent : e.getEntity id = some ent) :
    (Fighter.die e id).getEntity id = some (dieTransform ent) := by
  have heid := getEntity_found_eid e id ent hent
  have h1 : (Fighter.die e id).getEntity id = (e.setEntity id dieTransform).getEntity id := by
    unfold Engine.getEntity
    rw [die_entities e id ent hent]
  rw [h1, getEntity_setEntity e id dieTransform (fun p => dieTransform_eid p) id, hent]
  simp [heid]

/-- `die()` clears the AI: the parent is no longer alive. -/
theorem isAlive_die (e : Engine) (id : Nat) (ent : Entity)
    (hent : e.getEntity id = some ent) :
    (Fighter.die e id).isAlive id = false := by
  unfold Engine.isAlive
  rw [getEntity_die e id ent hent]
  show (dieTransform ent).is_alive = false
  rw [is_alive_actorData, dieTransform_actorData]
  cases h : ent.actorData <;> simp

/-- The `hp` setter, unfolded: clamp, then `die()` exactly when the clamped
value is 0 while the parent still has an AI. -/
theorem set_hp_eq (e : Engine) (id : Nat) (ent : Entity) (a : ActorData) (v : Int)
    (hent : e.getEntity id = some ent) (hAd : ent.actorData = some a) :
    Fighter.set_hp e id v =
      (if max 0 (min v a.fighter.max_hp) == 0 && a.ai.isSome then
        Fighter.die (e.setEntity id (Entity.mapActor
          (fun a2 => { a2 with fighter :=
            { a2.fighter with hp := max 0 (min v a.fighter.max_hp) } }))) id
      else e.setEntity id (Entity.mapActor
        (fun a2 => { a2 with fighter :=
          { a2.fighter with hp := max 0 (min v a.fighter.max_hp) } }))) := by
  unfold Fighter.set_hp
  rw [hent]
  simp only [hAd]

theorem fighterOf_setEntity_mapActor (e : Engine) (id : Nat) (ent : Entity) (a : ActorData)
    (hent : e.getEntity id = some ent) (hAd : ent.actorData = some a)
    (g : ActorData → ActorData) :
    (e.setEntity id (Entity.mapActor g)).fighterOf id = some (g a).fighter := by
  have heid := getEntity_found_eid e id ent hent
  unfold Engine.fighterOf
  rw [getEntity_setEntity e id _ (fun x => mapActor_eid g x) id, hent]
  simp [heid, hAd]

theorem getEntity_setEntity_mapActor_self (e : Engine) (id : Nat) (ent : Entity)
    (hent : e.getEntity id = some ent) (g : ActorData → ActorData) :
    (e.setEntity id (Entity.mapActor g)).getEntity id = some (Entity.mapActor g ent) := by
  have heid := getEntity_found_eid e id ent hent
  rw [getEntity_setEntity e id _ (fun x => mapActor_eid g x) id, hent]
  simp [heid]

theorem actorData_some_kind (ent : Entity) (a : ActorData) (h : ent.actorData = some a) :
    ent.kind = .actorE a := by
  unfold Entity.actorData at h
  cases hk : ent.kind <;> rw [hk] at h <;> simp at h <;> simp [h]

theorem mapActor_id_of (g : ActorData → ActorData) (ent : Entity) (a : ActorData)
    (h : ent.kind = .actorE a) (hga : g a = a) : Entity.mapActor g ent = ent := by
  unfold Entity.mapActor
  rw [h]
  simp only [hga, ← h]

/-- In-place mutation that fixes the (unique) found entity is a no-op. -/
theorem setEntity_eq_self (e : Engine) (id : Nat) (ent : Entity) (f : Entity → Entity)
    (huniq : (e.entities.map Entity.eid).Nodup)
    (hent : e.getEntity id = some ent) (hf : f ent = ent) :
    e.setEntity id f = e := by
  have heid := getEntity_found_eid e id ent hent
  have hmem : ent ∈ e.entities := by
    unfold Engine.getEntity at hent
    exact List.mem_of_find?_eq_some hent
  have hmap : e.entities.map (fun x => if x.eid == id then f x else x) = e.entities := by
    have : ∀ x ∈ e.entities, (if x.eid == id then f x else x) = x := by
      intro x hx
      by_cases hxid : x.eid == id
      · have hxeq : x = ent := by
          apply List.inj_on_of_nodup_map huniq hx hmem
          rw [heid]
          simpa using hxid
        simp [hxid, hxeq, hf]
      · simp [hxid]
    calc e.entities.map (fun x => if x.eid == id then f x else x)
        = e.entities.map (fun x => x) := List.map_congr_left this
      _ = e.entities := List.map_id e.entities
  unfold Engine.setEntity
  rw [hmap]

/-! ## Claims -/

/-- C4: for every actor and direction, Bump dispatches by this priority
order — a living combatant at the destination gives an Attack, else an NPC
gives an Interact, else a Move; a Bump into a tile occupied by a living
combatant resolves as an attack and never as movement (the dispatch does
not consult walkability at all). -/
theorem C4_bump_priority (e : Engine) (id : Nat) (ent : Entity) (dx dy : Int)
    (hent : e.getEntity id = some ent) :
    ((e.get_actor_at_location (ent.x + dx) (ent.y + dy)).isSome ↔
        ∃ a ∈ e.entities, a.is_alive ∧ a.x = ent.x + dx ∧ a.y = ent.y + dy)
    ∧ ((e.get_actor_at_location (ent.x + dx) (ent.y + dy)).isSome →
        BumpAction.dispatch id dx dy e = .attack
        ∧ BumpAction.perform id dx dy e =
            MeleeAction.perform id dx dy none
              (e.setEntity id (fun p => { p with last_position := (p.x, p.y) })))
    ∧ ((e.get_actor_at_location (ent.x + dx) (ent.y + dy)) = none →
        (e.get_NPC_at_location (ent.x + dx) (ent.y + dy)).isSome →
        BumpAction.dispatch id dx dy e = .interact
        ∧ BumpAction.perform id dx dy e =
            InteractNPCAction.perform id dx dy
              (e.setEntity id (fun p => { p with last_position := (p.x, p.y) })))
    ∧ ((e.get_actor_at_location (ent.x + dx) (ent.y + dy)) = none →
        (e.get_NPC_at_location (ent.x + dx) (ent.y + dy)) = none →
        BumpAction.dispatch id dx dy e = .move
        ∧ BumpAction.perform id dx dy e = MovementAction.perform id dx dy e) := by
  refine ⟨?_, ?_, ?_, ?_⟩
  · simp only [Engine.get_actor_at_location, Engine.actors, List.find?_isSome,
      List.mem_filter]
    constructor
    · rintro ⟨a, ⟨ha, hflt⟩, hpos⟩
      refine ⟨a, ha, ?_, ?_, ?_⟩
      · exact (Bool.and_elim_right hflt)
      · simpa using (Bool.and_elim_left hpos)
      · simpa using (Bool.and_elim_right hpos)
    · rintro ⟨a, ha, halive, hx, hy⟩
      have hact : a.is_actor := by
        unfold Entity.is_alive at halive
        unfold Entity.is_actor
        cases h : a.kind <;> simp [h] at halive ⊢
      exact ⟨a, ⟨ha, by simp [hact, halive]⟩, by simp [hx, hy]⟩
  · intro hsome
    constructor
    · simp [BumpAction.dispatch, hent, hsome]
    · simp [BumpAction.perform, hent, hsome]
  · intro hnone hnpc
    constructor
    · simp [BumpAction.dispatch, hent, hnone, hnpc]
    · simp [BumpAction.perform, hent, hnone, hnpc]
  · intro hnone hnpc
    constructor
    · simp [BumpAction.dispatch, hent, hnone, hnpc]
    · simp [BumpAction.perform, hent, hnone, hnpc]


/-- Witness for C4: with a living slime mold one tile east of the player,
the player's eastward Bump dispatches as an attack. -/
theorem C4_bump_priority_witness :
    E4.getEntity 0 = some E4player
    ∧ (E4.get_actor_at_location (E4player.x + 1) (E4player.y + 0)).isSome
    ∧ BumpAction.dispatch 0 1 0 E4 = .attack :=
  ⟨by decide, by decide, ((C4_bump_priority E4 0 E4player 1 0 (by decide)).2.1 (by decide)).1⟩

/-- C6: in a melee attack against an occupied tile, the dodge roll negates
the attack entirely — the state is unchanged but for the advanced rng index
and the dodge message, so no damage, no hooks and no status effect —
exactly when the roll is at most the target's dodge stat; with a roll in
[1,100], a target with dodge ≥ 100 always negates the attack and a target
with dodge 0 never does. -/
theorem C6_dodge (e : Engine) (id : Nat) (attacker target : Entity)
    (aAd tAd : ActorData) (dx dy : Int) (effect : Option StatusEffect)
    (hatt : e.getEntity id = some attacker)
    (haAd : attacker.actorData = some aAd)
    (htgt : e.get_actor_at_location (attacker.x + dx) (attacker.y + dy) = some target)
    (htAd : target.actorData = some tAd) :
    (e.rng e.rngIdx ≤ tAd.dodge →
        MeleeAction.perform id dx dy effect e =
          Except.ok { e with
            rngIdx := e.rngIdx + 1
            log := e.log ++ [pyCapitalize attacker.name ++ " Tries to attack, but "
              ++ pyCapitalize target.name ++ " dodges the attack!"] })
    ∧ (e.rng e.rngIdx > tAd.dodge →
        MeleeAction.perform id dx dy effect e =
          Except.ok (MeleeAction.resolve_hit { e with rngIdx := e.rngIdx + 1 } id target.eid
            attacker.name target.name aAd.power tAd.defense aAd.equipment tAd.equipment effect))
    ∧ (tAd.dodge ≥ 100 → 1 ≤ e.rng e.rngIdx → e.rng e.rngIdx ≤ 100 →
        MeleeAction.perform id dx dy effect e =
          Except.ok { e with
            rngIdx := e.rngIdx + 1
            log := e.log ++ [pyCapitalize attacker.name ++ " Tries to attack, but "
              ++ pyCapitalize target.name ++ " dodges the attack!"] })
    ∧ (tAd.dodge = 0 → 1 ≤ e.rng e.rngIdx →
        MeleeAction.perform id dx dy effect e =
          Except.ok (MeleeAction.resolve_hit { e with rngIdx := e.rngIdx + 1 } id target.eid
            attacker.name target.name aAd.power tAd.defense aAd.equipment tAd.equipment effect)) := by
  have hdodge : ∀ h : e.rng e.rngIdx ≤ tAd.dodge,
      MeleeAction.perform id dx dy effect e =
        Except.ok { e with
          rngIdx := e.rngIdx + 1
          log := e.log ++ [pyCapitalize attacker.name ++ " Tries to attack, but "
            ++ pyCapitalize target.name ++ " dodges the attack!"] } := by
    intro h
    simp [MeleeAction.perform, hatt, htgt, htAd, haAd, Engine.randint, Engine.add_message, h]
  have hhit : ∀ _ : e.rng e.rngIdx > tAd.dodge,
      MeleeAction.perform id dx dy effect e =
        Except.ok (MeleeAction.resolve_hit { e with rngIdx := e.rngIdx + 1 } id target.eid
          attacker.name target.name aAd.power tAd.defense aAd.equipment tAd.equipment effect) := by
    intro h
    have h2 : ¬ (e.rng e.rngIdx ≤ tAd.dodge) := by omega
    simp [MeleeAction.perform, hatt, htgt, htAd, haAd, Engine.randint, h2]
  refine ⟨hdodge, hhit, ?_, ?_⟩
  · intro h100 h1 h2
    exact hdodge (by omega)
  · intro h0 h1
    exact hhit (by omega)


/-- Witness for C6: against a dodge-0 slime mold and a roll of 50, the
attack is never negated and proceeds to the hit resolution. -/
theorem C6_dodge_witness :
    E6tAd.dodge = 0 ∧ 1 ≤ E6.rng E6.rngIdx ∧
    MeleeAction.perform 0 1 0 none E6 =
      Except.ok (MeleeAction.resolve_hit { E6 with rngIdx := E6.rngIdx + 1 } 0 E6target.eid
        E6attacker.name E6target.name E6aAd.power E6tAd.defense E6aAd.equipment
        E6tAd.equipment none) :=
  ⟨by decide, by decide,
    (C6_dodge E6 0 E6attacker E6target E6aAd E6tAd 1 0 none (by decide) (by decide)
      (by decide) (by decide)).2.2.2 (by decide) (by decide)⟩

/-- C5: for a combatant not immune to the kind, applying a status effect
whose kind is already present adds the new duration onto the (first)
existing entry and never creates a second entry; applying a kind not
present appends a single copied entry; applying an effect the combatant is
immune to leaves the whole state unchanged. -/
theorem C5_apply_status_effect (e : Engine) (id : Nat) (ent : Entity) (a : ActorData)
    (effect : StatusEffect)
    (hent : e.getEntity id = some ent) (hAd : ent.actorData = some a) :
    (a.fighter.immune_effects.contains effect.kind = true →
        Fighter.apply_status_effect e id effect = e)
    ∧ (a.fighter.immune_effects.contains effect.kind = false →
        (∀ s ∈ a.fighter.status_effects, s.kind.effName ≠ effect.kind.effName) →
        statusListOf (Fighter.apply_status_effect e id effect) id
          = a.fighter.status_effects ++ [effect])
    ∧ (a.fighter.immune_effects.contains effect.kind = false →
        ∀ l₁ s l₂, a.fighter.status_effects = l₁ ++ s :: l₂ →
          (∀ t ∈ l₁, t.kind.effName ≠ effect.kind.effName) →
          s.kind.effName = effect.kind.effName →
          statusListOf (Fighter.apply_status_effect e id effect) id
            = l₁ ++ { s with duration := s.duration + effect.duration } :: l₂) := by
  refine ⟨?_, ?_, ?_⟩
  · intro him
    simp only [Fighter.apply_status_effect, hent, hAd, him]
    simp
  · intro him habs
    have hnone := addDuration_none_of a.fighter.status_effects effect habs
    simp only [Fighter.apply_status_effect, hent, hAd, him, hnone]
    rw [if_neg (by simp)]
    rw [statusListOf_add_message,
      statusListOf_setEntity_mapActor e id ent a hent hAd _]
  · intro him l₁ s l₂ hdec h₁ hs
    have hsome := addDuration_merge l₁ s l₂ effect h₁ hs
    simp only [Fighter.apply_status_effect, hent, hAd, him, hdec, hsome]
    rw [if_neg (by simp)]
    rw [statusListOf_setEntity_mapActor e id ent a hent hAd _]


/-- Witness for C5: `apply(Poisoned(4,1))` on a fresh slime mold appends one
entry, and a following `apply(Poisoned(3,1))` leaves exactly one Poisoned
entry, of duration 7. -/
theorem C5_apply_status_effect_witness :
    statusListOf (Fighter.apply_status_effect E5 1 poisonEff4) 1 = [poisonEff4]
    ∧ statusListOf
        (Fighter.apply_status_effect (Fighter.apply_status_effect E5 1 poisonEff4) 1 poisonEff3) 1
      = [{ kind := .poisoned, duration := 7, value := 1, last_pos := (0, 0) }] :=
  ⟨by
    have h := (C5_apply_status_effect E5 1 E5mold E5moldAd poisonEff4
      (by decide) (by decide)).2.1 (by decide) (by simp [E5moldAd, moldFighter, Fighter.init])
    simpa [E5moldAd, moldFighter, Fighter.init] using h,
   by decide⟩

/-- C3: every write through the HP setter (damage, heal and direct
assignment all go through it) leaves HP in [0, maxHP]; the setter calls the
death path only while an AI is present, the death transition to 0 clears
the AI, and damaging an already-dead combatant (AI cleared, HP 0) has no
effect at all on the state. -/
theorem C3_hp_bounds_death_once (e : Engine) (id : Nat) (ent : Entity) (a : ActorData)
    (v amount : Int)
    (hent : e.getEntity id = some ent) (hAd : ent.actorData = some a)
    (hmax : 0 ≤ a.fighter.max_hp) :
    (∃ f2, (Fighter.set_hp e id v).fighterOf id = some f2
        ∧ 0 ≤ f2.hp ∧ f2.hp ≤ a.fighter.max_hp)
    ∧ (a.ai = none →
        Fighter.set_hp e id v = e.setEntity id (Entity.mapActor
          (fun a2 => { a2 with fighter :=
            { a2.fighter with hp := max 0 (min v a.fighter.max_hp) } })))
    ∧ (max 0 (min v a.fighter.max_hp) = 0 → a.ai.isSome →
        (Fighter.set_hp e id v).isAlive id = false)
    ∧ ((e.entities.map Entity.eid).Nodup → a.ai = none → a.fighter.hp = 0 → 0 ≤ amount →
        Fighter.take_damage e id amount = e) := by
  have hshp := set_hp_eq e id ent a v hent hAd
  have hb1 : (0 : Int) ≤ max 0 (min v a.fighter.max_hp) := le_max_left 0 _
  have hb2 : max 0 (min v a.fighter.max_hp) ≤ a.fighter.max_hp :=
    max_le hmax (min_le_right v a.fighter.max_hp)
  refine ⟨?_, ?_, ?_, ?_⟩
  · rw [hshp]
    by_cases hc : (max 0 (min v a.fighter.max_hp) == 0 && a.ai.isSome) = true
    · rw [if_pos hc]
      have he1 := getEntity_setEntity_mapActor_self e id ent hent
        (fun a2 => { a2 with fighter := { a2.fighter with hp := max 0 (min v a.fighter.max_hp) } })
      have hget := getEntity_die _ id _ he1
      have hfo : (Fighter.die (e.setEntity id (Entity.mapActor
          (fun a2 => { a2 with fighter :=
            { a2.fighter with hp := max 0 (min v a.fighter.max_hp) } }))) id).fighterOf id
          = some { a.fighter with hp := max 0 (min v a.fighter.max_hp), status_effects := [] } := by
        unfold Engine.fighterOf
        rw [hget]
        show ((dieTransform _).actorData).map (fun a => a.fighter) = _
        rw [dieTransform_actorData, mapActor_actorData, hAd]
        rfl
      exact ⟨_, hfo, hb1, hb2⟩
    · rw [if_neg hc]
      refine ⟨_, fighterOf_setEntity_mapActor e id ent a hent hAd _, hb1, hb2⟩
  · intro hai
    rw [hshp, hai]
    simp
  · intro h0 hai
    rw [hshp]
    rw [if_pos (by simp [h0, hai])]
    exact isAlive_die _ id _ (getEntity_setEntity_mapActor_self e id ent hent _)
  · intro huniq hai hhp0 hamt
    have hf : e.fighterOf id = some a.fighter := by
      unfold Engine.fighterOf
      rw [hent]
      show (ent.actorData).map (fun a => a.fighter) = some a.fighter
      rw [hAd]
      rfl
    unfold Fighter.take_damage
    rw [hf]
    show Fighter.set_hp e id (a.fighter.hp - amount) = e
    have h1 : min (a.fighter.hp - amount) a.fighter.max_hp = a.fighter.hp - amount :=
      min_eq_left (by omega)
    have h2 : max 0 (a.fighter.hp - amount) = 0 := max_eq_left (by omega)
    rw [set_hp_eq e id ent a _ hent hAd, h1, h2]
    rw [if_neg (by simp [hai])]
    apply setEntity_eq_self e id ent _ huniq hent
    apply mapActor_id_of _ ent a (actorData_some_kind ent a hAd)
    have hfe : { a.fighter with hp := 0 } = a.fighter := by
      rw [← hhp0]
    rw [hfe]



theorem lastHurtOf_congr {e1 e2 : Engine} (h : e1.entities = e2.entities) (j : Nat) :
    lastHurtOf e1 j = lastHurtOf e2 j := by
  unfold lastHurtOf Engine.fighterOf
  rw [getEntity_congr h]

theorem fighterOf_eq_bind (e : Engine) (j : Nat) :
    e.fighterOf j = (e.getEntity j).bind (fun ent => (ent.actorData).map (fun a => a.fighter)) := by
  unfold Engine.fighterOf
  cases e.getEntity j <;> rfl

theorem lastHurtOf_eq (e : Engine) (j : Nat) :
    lastHurtOf e j = (e.getEntity j).bind
      (fun ent => (ent.actorData).map (fun a => a.fighter.last_actor_hurt_by)) := by
  unfold lastHurtOf
  rw [fighterOf_eq_bind]
  cases h : e.getEntity j with
  | none => rfl
  | some p =>
    simp only [Option.some_bind]
    cases p.actorData <;> rfl

theorem lastHurtOf_setEntity (e : Engine) (id : Nat) (f : Entity → Entity) (j : Nat)
    (hf : ∀ ent, (f ent).eid = ent.eid)
    (hl : ∀ ent, ((f ent).actorData).map (fun a => a.fighter.last_actor_hurt_by)
      = (ent.actorData).map (fun a => a.fighter.last_actor_hurt_by)) :
    lastHurtOf (e.setEntity id f) j = lastHurtOf e j := by
  rw [lastHurtOf_eq, lastHurtOf_eq, getEntity_setEntity e id f hf]
  cases h : e.getEntity j with
  | none => rfl
  | some p =>
    simp only [Option.map_some', Option.some_bind]
    by_cases hp : (p.eid == id) = true
    · rw [if_pos hp]
      exact hl p
    · rw [if_neg hp]

theorem lastHurtOf_mapActor_setEntity (e : Engine) (id : Nat) (j : Nat)
    (g : ActorData → ActorData)
    (hg : ∀ a, (g a).fighter.last_actor_hurt_by = a.fighter.last_actor_hurt_by) :
    lastHurtOf (e.setEntity id (Entity.mapActor g)) j = lastHurtOf e j := by
  apply lastHurtOf_setEntity e id _ j (fun p => mapActor_eid g p)
  intro p
  rw [mapActor_actorData]
  cases p.actorData with
  | none => rfl
  | some a => simp [hg a]

theorem lastHurtOf_die (e : Engine) (id j : Nat) :
    lastHurtOf (Fighter.die e id) j = lastHurtOf e j := by
  cases hent : e.getEntity id with
  | none =>
    unfold Fighter.die
    rw [hent]
  | some ent =>
    have h1 : lastHurtOf (Fighter.die e id) j = lastHurtOf (e.setEntity id dieTransform) j :=
      lastHurtOf_congr (die_entities e id ent hent) j
    rw [h1]
    apply lastHurtOf_setEntity e id dieTransform j (fun p => dieTransform_eid p)
    intro p
    rw [dieTransform_actorData]
    cases p.actorData <;> rfl

theorem lastHurtOf_set_hp (e : Engine) (id : Nat) (v : Int) (j : Nat) :
    lastHurtOf (Fighter.set_hp e id v) j = lastHurtOf e j := by
  cases hent : e.getEntity id with
  | none =>
    unfold Fighter.set_hp
    rw [hent]
  | some ent =>
    cases hAd : ent.actorData with
    | none =>
      unfold Fighter.set_hp
      rw [hent]
      simp only [hAd]
    | some a =>
      rw [set_hp_eq e id ent a v hent hAd]
      have hset := lastHurtOf_mapActor_setEntity e id j
        (fun a2 => { a2 with fighter :=
          { a2.fighter with hp := max 0 (min v a.fighter.max_hp) } }) (fun _ => rfl)
      split
      · rw [lastHurtOf_die, hset]
      · exact hset

theorem lastHurtOf_take_damage (e : Engine) (id : Nat) (amount : Int) (j : Nat) :
    lastHurtOf (Fighter.take_damage e id amount) j = lastHurtOf e j := by
  unfold Fighter.take_damage
  cases hf : e.fighterOf id with
  | none => rfl
  | some f => exact lastHurtOf_set_hp e id _ j

/-- `apply_status_effect`, unfolded at a present actor. -/
theorem apply_status_effect_eq (e : Engine) (id : Nat) (ent : Entity) (a : ActorData)
    (eff : StatusEffect)
    (hent : e.getEntity id = some ent) (hAd : ent.actorData = some a) :
    Fighter.apply_status_effect e id eff =
      (if a.fighter.immune_effects.contains eff.kind then e
      else
        match addDuration a.fighter.status_effects eff with
        | some l1 =>
          e.setEntity id (Entity.mapActor
            (fun a2 => { a2 with fighter := { a2.fighter with status_effects := l1 } }))
        | none =>
          (e.setEntity id (Entity.mapActor (fun a2 =>
            { a2 with fighter :=
                { a2.fighter with status_effects := a2.fighter.status_effects ++ [eff] } }))).add_message
            (ent.name ++ " is now " ++ eff.kind.effName ++ "!")) := by
  unfold Fighter.apply_status_effect
  rw [hent]
  simp only [hAd]

theorem lastHurtOf_apply_status_effect (e : Engine) (id : Nat) (eff : StatusEffect) (j : Nat) :
    lastHurtOf (Fighter.apply_status_effect e id eff) j = lastHurtOf e j := by
  cases hent : e.getEntity id with
  | none =>
    unfold Fighter.apply_status_effect
    rw [hent]
  | some ent =>
    cases hAd : ent.actorData with
    | none =>
      unfold Fighter.apply_status_effect
      rw [hent]
      simp only [hAd]
    | some a =>
      rw [apply_status_effect_eq e id ent a eff hent hAd]
      split
      · rfl
      · split
        · exact lastHurtOf_mapActor_setEntity e id j _ (fun _ => rfl)
        · rw [show ∀ x : Engine, ∀ m, lastHurtOf (x.add_message m) j = lastHurtOf x j
            from fun x m => rfl]
          exact lastHurtOf_mapActor_setEntity e id j _ (fun _ => rfl)

theorem lastHurtOf_on_attack (k : EquippableKind) (e : Engine) (t j : Nat) :
    lastHurtOf (k.on_attack e t) j = lastHurtOf e j := by
  unfold EquippableKind.on_attack
  cases k <;> simp [lastHurtOf_apply_status_effect]

theorem lastHurtOf_on_hit (k : EquippableKind) (e : Engine) (t : Nat) (d : Int) (j : Nat) :
    lastHurtOf (k.on_hit e t d) j = lastHurtOf e j := by
  unfold EquippableKind.on_hit
  cases k <;>
    simp [lastHurtOf_apply_status_effect, lastHurtOf_take_damage]

theorem lastHurtOf_weaponHook (aeq : Option Equipment) (e : Engine) (t j : Nat) :
    lastHurtOf (weaponHookApply aeq e t) j = lastHurtOf e j := by
  unfold weaponHookApply
  cases aeq with
  | none => rfl
  | some q =>
    cases q with
    | mk w ar =>
      cases w with
      | none => rfl
      | some wk => exact lastHurtOf_on_attack wk e t j

theorem lastHurtOf_armorHook (teq : Option Equipment) (e : Engine) (t : Nat) (d : Int) (j : Nat) :
    lastHurtOf (armorHookApply teq e t d) j = lastHurtOf e j := by
  unfold armorHookApply
  cases teq with
  | none => rfl
  | some q =>
    cases q with
    | mk w ar =>
      cases ar with
      | none => rfl
      | some ak => exact lastHurtOf_on_hit ak e t d j

theorem lastHurtOf_resolve_hit (e : Engine) (aid tid : Nat) (an tn : String)
    (pw df : Int) (aeq teq : Option Equipment) (eff : Option StatusEffect) (j : Nat) :
    lastHurtOf (MeleeAction.resolve_hit e aid tid an tn pw df aeq teq eff) j
      = lastHurtOf e j := by
  cases eff with
  | some f =>
    simp only [MeleeAction.resolve_hit]
    split
    · rw [lastHurtOf_apply_status_effect, lastHurtOf_armorHook, lastHurtOf_weaponHook,
        lastHurtOf_take_damage]
      rfl
    · rfl
  | none =>
    simp only [MeleeAction.resolve_hit]
    split
    · rw [lastHurtOf_armorHook, lastHurtOf_weaponHook, lastHurtOf_take_damage]
      rfl
    · rfl

theorem lastHurtOf_melee (e e2 : Engine) (aid : Nat) (dx dy : Int)
    (eff : Option StatusEffect) (j : Nat)
    (h : MeleeAction.perform aid dx dy eff e = Except.ok e2) :
    lastHurtOf e2 j = lastHurtOf e j := by
  cases hent : e.getEntity aid with
  | none =>
    simp only [MeleeAction.perform, hent, Except.ok.injEq] at h
    rw [← h]
  | some attacker =>
    simp only [MeleeAction.perform, hent] at h
    cases htgt : e.get_actor_at_location (attacker.x + dx) (attacker.y + dy) with
    | none =>
      simp only [htgt] at h
      cases h
    | some target =>
      simp only [htgt] at h
      cases htAd : target.actorData with
      | none =>
        cases haAd : attacker.actorData with
        | none =>
          simp only [htAd, haAd, Except.ok.injEq] at h
          rw [← h]
        | some aAd =>
          simp only [htAd, haAd, Except.ok.injEq] at h
          rw [← h]
      | some tAd =>
        cases haAd : attacker.actorData with
        | none =>
          simp only [htAd, haAd, Except.ok.injEq] at h
          rw [← h]
        | some aAd =>
          simp only [htAd, haAd, Engine.randint] at h
          split at h
          · simp only [Except.ok.injEq] at h
            rw [← h]
            rfl
          · simp only [Except.ok.injEq] at h
            rw [← h, lastHurtOf_resolve_hit]
            rfl

/-- Witness for C3: writing -5 into the slime mold's HP lands in
[0, maxHP], and damaging an already-dead mold changes nothing. -/
theorem C3_hp_bounds_death_once_witness :
    (∃ f2, (Fighter.set_hp E3 1 (-5)).fighterOf 1 = some f2
        ∧ 0 ≤ f2.hp ∧ f2.hp ≤ moldFighter.max_hp)
    ∧ Fighter.take_damage E3dead 1 3 = E3dead :=
  ⟨(C3_hp_bounds_death_once E3 1 E3mold E3moldAd (-5) 3
      (by decide) (by decide) (by decide)).1,
   (C3_hp_bounds_death_once E3dead 1 E3deadMold E3deadMoldAd 0 3
      (by decide) (by decide) (by decide)).2.2.2 (by decide) (by decide) (by decide)
      (by decide)⟩

/-- C1: the claim says `last_actor_hurt_by` holds the identity of the last
entity that reduced the combatant's HP and that the reward branch of
`die()` runs when the player lands a killing melee blow.  In the code the
field is only ever written by `Fighter.__init__` (to the empty string):
no HP-reducing path updates it, so the reward condition
`last_actor_hurt_by == player.internal_name` is always false and the
branch is dead — shown concretely by a player melee kill that grants no
XP and no credits. -/
theorem C1_last_damager_never_written :
    (∀ hp bd bdef bp imm, (Fighter.init hp bd bdef bp imm).last_actor_hurt_by = "")
    ∧ (∀ e id amount j, lastHurtOf (Fighter.take_damage e id amount) j = lastHurtOf e j)
    ∧ (∀ e id v j, lastHurtOf (Fighter.set_hp e id v) j = lastHurtOf e j)
    ∧ (∀ e id j, lastHurtOf (Fighter.die e id) j = lastHurtOf e j)
    ∧ (∀ e e2 aid dx dy eff j, MeleeAction.perform aid dx dy eff e = Except.ok e2 →
        lastHurtOf e2 j = lastHurtOf e j)
    ∧ (∀ e id ent a, e.getEntity id = some ent → ent.actorData = some a →
        a.fighter.last_actor_hurt_by = "" → e.playerInternalName ≠ "" →
        (Fighter.die e id).credits = e.credits ∧ (Fighter.die e id).player_xp = e.player_xp)
    ∧ (MeleeAction.perform 0 1 0 none E1 = Except.ok E1kill
        ∧ E1kill.isAlive 1 = false
        ∧ E1kill.credits = 0
        ∧ E1kill.player_xp = 0
        ∧ lastHurtOf E1kill 1 = some "") := by
  refine ⟨fun _ _ _ _ _ => rfl,
    fun e id amount j => lastHurtOf_take_damage e id amount j,
    fun e id v j => lastHurtOf_set_hp e id v j,
    fun e id j => lastHurtOf_die e id j,
    fun e e2 aid dx dy eff j h => lastHurtOf_melee e e2 aid dx dy eff j h,
    ?_, ?_, ?_, ?_, ?_, ?_⟩
  · intro e id ent a hent hAd hlast hpn
    unfold Fighter.die
    rw [hent]
    simp only [hAd]
    have hname : ((e.setEntity id dieTransform).add_message
        (if id == e.player_id then "You died!" else ent.name ++ " died!")).playerInternalName
        = e.playerInternalName := by
      rw [playerInternalName_add_message,
        playerInternalName_setEntity e id dieTransform (fun p => dieTransform_eid p)
          (fun p => dieTransform_internal_name p)]
    have hbeq : (a.fighter.last_actor_hurt_by == e.playerInternalName) = false := by
      rw [hlast]
      exact beq_eq_false_iff_ne.mpr (fun hcontra => hpn hcontra.symm)
    simp only [hname, hbeq, Bool.false_and]
    rw [if_neg (by simp)]
    exact ⟨rfl, rfl⟩
  · rfl
  · decide
  · decide
  · decide
  · decide

/-- Witness for C1: the reward-skipping fact applied at the concrete kill
state — the slime mold's death grants no credits and no experience. -/
theorem C1_last_damager_never_written_witness :
    (Fighter.die E1 1).credits = E1.credits ∧ (Fighter.die E1 1).player_xp = E1.player_xp :=
  (C1_last_damager_never_written).2.2.2.2.2.1 E1 1 E1mold E1moldAd
    (by decide) (by decide) (by decide) (by decide)


theorem blocking_congr {e1 e2 : Engine} (h : e1.entities = e2.entities) (x y : Int) :
    e1.get_blocking_entity_at_location x y = e2.get_blocking_entity_at_location x y := by
  unfold Engine.get_blocking_entity_at_location
  rw [h]

theorem spawnTryLoop_some_blocked (fuel : Nat) : ∀ (e : Engine) (sx sy : Int)
    (xy : Int × Int) (tries : Nat) (p : Int × Int) (e2 : Engine),
    spawnTryLoop e sx sy xy tries fuel = (some p, e2) →
    (e.get_blocking_entity_at_location p.1 p.2).isSome = true := by
  induction fuel with
  | zero =>
    intro e sx sy xy tries p e2 h
    simp [spawnTryLoop] at h
  | succ fuel ih =>
    intro e sx sy xy tries p e2 h
    simp only [spawnTryLoop] at h
    by_cases hc : (e.in_bounds xy.1 xy.2
        && (e.get_blocking_entity_at_location xy.1 xy.2).isSome) = true
    · rw [if_pos hc] at h
      have hx : some xy = some p := congrArg Prod.fst h
      have hx2 : xy = p := by simpa using hx
      rw [← hx2]
      exact Bool.and_elim_right hc
    · rw [if_neg hc] at h
      simp only [Engine.randint] at h
      by_cases ht : tries + 1 > 10
      · rw [if_pos ht] at h
        simp at h
      · rw [if_neg ht] at h
        have h3 := ih _ sx sy _ (tries + 1) p e2 h
        exact h3

theorem spawnTryLoop_entities (fuel : Nat) : ∀ (e : Engine) (sx sy : Int)
    (xy : Int × Int) (tries : Nat) (res : Option (Int × Int)) (e2 : Engine),
    spawnTryLoop e sx sy xy tries fuel = (res, e2) → e2.entities = e.entities := by
  induction fuel with
  | zero =>
    intro e sx sy xy tries res e2 h
    cases h
    rfl
  | succ fuel ih =>
    intro e sx sy xy tries res e2 h
    simp only [spawnTryLoop] at h
    by_cases hc : (e.in_bounds xy.1 xy.2
        && (e.get_blocking_entity_at_location xy.1 xy.2).isSome) = true
    · rw [if_pos hc] at h
      cases h
      rfl
    · rw [if_neg hc] at h
      simp only [Engine.randint] at h
      by_cases ht : tries + 1 > 10
      · rw [if_pos ht] at h
        cases h
        rfl
      · rw [if_neg ht] at h
        have h3 := ih _ sx sy _ (tries + 1) res e2 h
        exact h3

theorem try_spawn_location_blocked (e : Engine) (sx sy : Int) (p : Int × Int)
    (h : (SpawnerEnemy.try_spawn_location e sx sy).1 = some p) :
    (e.get_blocking_entity_at_location p.1 p.2).isSome = true := by
  have hpair : SpawnerEnemy.try_spawn_location e sx sy
      = (some p, (SpawnerEnemy.try_spawn_location e sx sy).2) := by
    rw [← h]
  unfold SpawnerEnemy.try_spawn_location at hpair
  simp only [Engine.randint] at hpair
  have h3 := spawnTryLoop_some_blocked 11 _ sx sy _ 0 p _ hpair
  exact h3

theorem try_spawn_location_entities (e : Engine) (sx sy : Int) :
    (SpawnerEnemy.try_spawn_location e sx sy).2.entities = e.entities := by
  cases htry : SpawnerEnemy.try_spawn_location e sx sy with
  | mk res e2 =>
    show e2.entities = e.entities
    unfold SpawnerEnemy.try_spawn_location at htry
    simp only [Engine.randint] at htry
    have h3 := spawnTryLoop_entities 11 _ sx sy _ 0 _ _ htry
    exact h3

/-- C2 (code bug): the spawn-placement loop of the Spawner AI accepts a
tile only when `get_blocking_entity_at_location` finds a blocking entity
there — the `not` in the loop condition is inverted — so any accepted
spawn location is already occupied, and on a map whose whole ±3
neighborhood is free and in bounds the AI always falls back to waiting.
When a spawn does happen, exactly one clone of the template is added. -/
theorem C2_spawner_requires_occupied :
    (∀ (e : Engine) (sx sy : Int) (p : Int × Int),
        (SpawnerEnemy.try_spawn_location e sx sy).1 = some p →
        (e.get_blocking_entity_at_location p.1 p.2).isSome = true)
    ∧ (∀ (e : Engine) (id : Nat) (tpl : Entity),
        ((SpawnerEnemy.spawn_attempt e id tpl).2 = true →
          (SpawnerEnemy.spawn_attempt e id tpl).1.entities.length = e.entities.length + 1)
        ∧ ((SpawnerEnemy.spawn_attempt e id tpl).2 = false →
          (SpawnerEnemy.spawn_attempt e id tpl).1.entities = e.entities))
    ∧ (E2wait.in_bounds 6 6 = true
        ∧ (E2wait.get_blocking_entity_at_location 6 6).isSome = false
        ∧ (SpawnerEnemy.try_spawn_location E2wait 5 5).1 = none)
    ∧ ((SpawnerEnemy.try_spawn_location E2hit 5 5).1 = some (5, 5)
        ∧ (E2hit.get_blocking_entity_at_location 5 5).isSome = true) := by
  refine ⟨fun e sx sy p h => try_spawn_location_blocked e sx sy p h, ?_, ?_, ?_⟩
  · intro e id tpl
    unfold SpawnerEnemy.spawn_attempt
    cases hent : e.getEntity id with
    | none =>
      constructor
      · intro h
        simp at h
      · intro _
        rfl
    | some sp =>
      cases htry : SpawnerEnemy.try_spawn_location e sp.x sp.y with
      | mk res e1 =>
        have hents : e1.entities = e.entities := by
          have := try_spawn_location_entities e sp.x sp.y
          rw [htry] at this
          exact this
        cases res with
        | some xy =>
          simp only [htry]
          constructor
          · intro _
            simp [Entity.spawn, Engine.add_message, hents]
          · intro h
            simp at h
        | none =>
          simp only [htry]
          constructor
          · intro h
            simp at h
          · intro _
            exact hents
  · exact ⟨by decide, by decide, by decide⟩
  · exact ⟨by decide, by decide⟩

/-- Witness for C2: the accepted location in the concrete occupied-pick run
is the spawner's own tile, which indeed holds a blocking entity. -/
theorem C2_spawner_requires_occupied_witness :
    (E2hit.get_blocking_entity_at_location 5 5).isSome = true :=
  (C2_spawner_requires_occupied).1 E2hit 5 5 (5, 5) (by decide)


/-- C9: a Bleeding tick damages its host exactly when the recorded
`last_position` differs from the current position; in particular after a
Wait — which records the current position — the tick deals no damage and
leaves the engine unchanged. -/
theorem C9_bleeding_move_gated (e : Engine) (id : Nat) (ent : Entity) (eff : StatusEffect)
    (hent : e.getEntity id = some ent)
    (hk : eff.kind = .bleeding) :
    (ent.last_position ≠ (ent.x, ent.y) →
        StatusEffect.on_tick eff id e
          = (Fighter.take_damage e id eff.value,
             { eff with last_pos := ent.last_position, duration := eff.duration - 1 }))
    ∧ (ent.last_position = (ent.x, ent.y) →
        StatusEffect.on_tick eff id e
          = (e, { eff with last_pos := ent.last_position, duration := eff.duration - 1 }))
    ∧ (∀ e1, WaitAction.perform id e = Except.ok e1 →
        (StatusEffect.on_tick eff id e1).1 = e1) := by
  refine ⟨?_, ?_, ?_⟩
  · intro hmove
    simp only [StatusEffect.on_tick, hk, hent]
    rw [if_pos hmove]
  · intro hstay
    simp only [StatusEffect.on_tick, hk, hent]
    rw [if_neg (by simp [hstay])]
  · intro e1 h1
    have he1 : e1 = e.setEntity id (fun p => { p with last_position := (p.x, p.y) }) := by
      unfold WaitAction.perform at h1
      exact ((Except.ok.injEq _ _).mp h1).symm
    have hget : e1.getEntity id
        = some { ent with last_position := (ent.x, ent.y) } := by
      rw [he1, getEntity_setEntity e id (fun p => { p with last_position := (p.x, p.y) })
        (fun p => rfl) id, hent]
      have heid := getEntity_found_eid e id ent hent
      simp [heid]
    simp only [StatusEffect.on_tick, hk, hget]
    rw [if_neg (by simp)]

/-- Witness for C9: the moved slime mold takes Bleeding damage on the tick,
and the effect record keeps its recorded position and loses one duration. -/
theorem C9_bleeding_move_gated_witness :
    StatusEffect.on_tick bleedEff 1 E9
      = (Fighter.take_damage E9 1 bleedEff.value,
         { bleedEff with last_pos := E9movedMold.last_position,
                         duration := bleedEff.duration - 1 }) :=
  (C9_bleeding_move_gated E9 1 E9movedMold bleedEff (by decide) (by decide)).1 (by decide)


/-- C10: death clears the AI and the movement blocking; the living-actor
queries skip corpses, so a melee attack into a tile holding only a corpse
fails with Impossible("Nothing to attack.") and a Bump into it dispatches
as a Move. -/
theorem C10_corpse_not_targetable (e : Engine) (id : Nat) (ent : Entity) (dx dy : Int)
    (hent : e.getEntity id = some ent)
    (hdead : ∀ a ∈ e.entities, a.x = ent.x + dx → a.y = ent.y + dy →
        a.is_alive = false ∧ a.is_npc = false) :
    (∀ (e2 : Engine) (id2 : Nat) (ent2 : Entity), e2.getEntity id2 = some ent2 →
        (Fighter.die e2 id2).getEntity id2 = some (dieTransform ent2)
        ∧ (dieTransform ent2).blocks_movement = false
        ∧ (Fighter.die e2 id2).isAlive id2 = false)
    ∧ (∀ x y a2, e.get_actor_at_location x y = some a2 → a2.is_alive = true)
    ∧ e.get_actor_at_location (ent.x + dx) (ent.y + dy) = none
    ∧ MeleeAction.perform id dx dy none e = Except.error "Nothing to attack."
    ∧ BumpAction.dispatch id dx dy e = .move
    ∧ BumpAction.perform id dx dy e = MovementAction.perform id dx dy e := by
  have hfound : ∀ x y a2, e.get_actor_at_location x y = some a2 →
      a2.is_alive = true ∧ a2 ∈ e.entities ∧ a2.x = x ∧ a2.y = y := by
    intro x y a2 hf
    unfold Engine.get_actor_at_location at hf
    have hmem := List.mem_of_find?_eq_some hf
    have hpred := List.find?_some hf
    unfold Engine.actors at hmem
    rw [List.mem_filter] at hmem
    refine ⟨(Bool.and_elim_right hmem.2), hmem.1, ?_, ?_⟩
    · simpa using (Bool.and_elim_left hpred)
    · simpa using (Bool.and_elim_right hpred)
  have hanone : e.get_actor_at_location (ent.x + dx) (ent.y + dy) = none := by
    cases hcase : e.get_actor_at_location (ent.x + dx) (ent.y + dy) with
    | none => rfl
    | some a2 =>
      obtain ⟨halive, hmem, hx, hy⟩ := hfound _ _ a2 hcase
      have := (hdead a2 hmem hx hy).1
      rw [this] at halive
      cases halive
  have hnnone : e.get_NPC_at_location (ent.x + dx) (ent.y + dy) = none := by
    cases hcase : e.get_NPC_at_location (ent.x + dx) (ent.y + dy) with
    | none => rfl
    | some n =>
      unfold Engine.get_NPC_at_location at hcase
      have hmem := List.mem_of_find?_eq_some hcase
      have hpred := List.find?_some hcase
      unfold Engine.NPCs at hmem
      rw [List.mem_filter] at hmem
      have hx : n.x = ent.x + dx := by simpa using (Bool.and_elim_left hpred)
      have hy : n.y = ent.y + dy := by simpa using (Bool.and_elim_right hpred)
      have := (hdead n hmem.1 hx hy).2
      rw [this] at hmem
      simp at hmem
  refine ⟨?_, fun x y a2 hf => (hfound x y a2 hf).1, hanone, ?_, ?_, ?_⟩
  · intro e2 id2 ent2 hent2
    exact ⟨getEntity_die e2 id2 ent2 hent2, dieTransform_blocks ent2,
      isAlive_die e2 id2 ent2 hent2⟩
  · simp [MeleeAction.perform, hent, hanone]
  · simp [BumpAction.dispatch, hent, hanone, hnnone]
  · simp [BumpAction.perform, hent, hanone, hnnone]

/-- Witness for C10: with only a corpse east of the player, an eastward
melee attack is Impossible and the Bump dispatches as a Move. -/
theorem C10_corpse_not_targetable_witness :
    MeleeAction.perform 0 1 0 none E10 = Except.error "Nothing to attack."
    ∧ BumpAction.dispatch 0 1 0 E10 = .move :=
  ⟨(C10_corpse_not_targetable E10 0 (mkActorEnt 0 0 0 "Player" "player" playerFighter
      (some .hostile)) 1 0 (by decide) (by decide)).2.2.2.1,
   (C10_corpse_not_targetable E10 0 (mkActorEnt 0 0 0 "Player" "player" playerFighter
      (some .hostile)) 1 0 (by decide) (by decide)).2.2.2.2.1⟩


theorem enemyTurnsGo_append (ai : Nat → Engine → Except String Engine) (e : Engine)
    (l1 l2 : List Nat) :
    enemyTurnsGo ai e (l1 ++ l2) = enemyTurnsGo ai (enemyTurnsGo ai e l1) l2 := by
  induction l1 generalizing e with
  | nil => rfl
  | cons id rest ih =>
    simp only [List.cons_append, enemyTurnsGo]
    exact ih _

/-- C8: an Impossible raised by the player-issued action is written to the
log and aborts the tick — the turn is not consumed and phases 2-5 never
run (the returned state is the input state with only the message
appended); on success the full pipeline runs.  An Impossible raised by an
AI-issued action is swallowed: the engine is exactly as if that actor were
skipped — no log entry — and the remaining actors still take their
turns from that unchanged state. -/
theorem C8_impossible_policy :
    (∀ (ai : Nat → Engine → Except String Engine) (fov : Int × Int → Int → Int → Bool)
        (e : Engine) (act : Engine → Except String Engine) (msg : String),
        act e = Except.error msg →
        EventHandler.handle_action ai fov e (some act) = (false, e.add_message msg))
    ∧ (∀ (ai : Nat → Engine → Except String Engine) (fov : Int × Int → Int → Int → Bool)
        (e e1 : Engine) (act : Engine → Except String Engine),
        act e = Except.ok e1 →
        EventHandler.handle_action ai fov e (some act)
          = (true, ((e1.handle_enemy_turns ai).handle_status_effects.handle_zones).update_fov fov))
    ∧ (∀ (ai : Nat → Engine → Except String Engine) (e : Engine) (l1 : List Nat) (id : Nat)
        (l2 : List Nat) (m : String),
        ai id (enemyTurnsGo ai e l1) = Except.error m →
        enemyTurnsGo ai e (l1 ++ id :: l2) = enemyTurnsGo ai (enemyTurnsGo ai e l1) l2
        ∧ enemyTurnsGo ai e (l1 ++ [id]) = enemyTurnsGo ai e l1) := by
  refine ⟨?_, ?_, ?_⟩
  · intro ai fov e act msg hact
    simp [EventHandler.handle_action, hact]
  · intro ai fov e e1 act hact
    simp [EventHandler.handle_action, hact]
  · intro ai e l1 id l2 m herr
    have hstep : ∀ rest, enemyTurnsGo ai (enemyTurnsGo ai e l1) (id :: rest)
        = enemyTurnsGo ai (enemyTurnsGo ai e l1) rest := by
      intro rest
      by_cases halive : (enemyTurnsGo ai e l1).isAlive id = true
      · simp only [enemyTurnsGo, halive, herr, if_true]
      · simp only [enemyTurnsGo, halive, if_false]
        rw [if_neg (by simp [halive])]
    constructor
    · rw [enemyTurnsGo_append, hstep]
    · rw [enemyTurnsGo_append, hstep]
      rfl

/-- Witness for C8: a blocked westward player move logs the Impossible and
consumes nothing; an always-Impossible AI takes no turn at all. -/
theorem C8_impossible_policy_witness :
    EventHandler.handle_action aiW fovW E8 (some (MovementAction.perform 0 (-1) 0))
      = (false, E8.add_message "That way is blocked.")
    ∧ enemyTurnsGo aiW E8 ([] ++ [1]) = enemyTurnsGo aiW E8 [] :=
  ⟨(C8_impossible_policy).1 aiW fovW E8 (MovementAction.perform 0 (-1) 0)
      "That way is blocked." rfl,
   ((C8_impossible_policy).2.2 aiW E8 [] 1 [] "That way is blocked." rfl).2⟩


theorem mapActor_zoneData (f : ActorData → ActorData) (ent : Entity) :
    (Entity.mapActor f ent).zoneData = ent.zoneData := by
  unfold Entity.mapActor Entity.zoneData
  cases h : ent.kind <;> simp [h]

theorem dieTransform_zoneData (p : Entity) : (dieTransform p).zoneData = p.zoneData := by
  unfold dieTransform
  rw [mapActor_zoneData]
  rfl

theorem move_zoneData (p : Entity) (dx dy : Int) : (p.move dx dy).zoneData = p.zoneData := rfl

theorem zoneView_congr {e1 e2 : Engine} (h : e1.entities = e2.entities) (zid : Nat) :
    zoneView e1 zid = zoneView e2 zid := by
  unfold zoneView
  rw [getEntity_congr h]

theorem zoneView_setEntity (e : Engine) (id : Nat) (f : Entity → Entity) (zid : Nat)
    (hf : ∀ ent, (f ent).eid = ent.eid)
    (hz : ∀ ent, (f ent).zoneData = ent.zoneData) :
    zoneView (e.setEntity id f) zid = zoneView e zid := by
  unfold zoneView
  rw [getEntity_setEntity e id f hf]
  cases h : e.getEntity zid with
  | none => rfl
  | some p =>
    simp only [Option.map_some', Option.some_bind]
    by_cases hp : (p.eid == id) = true
    · rw [if_pos hp]
      exact hz p
    · rw [if_neg hp]

theorem zoneView_setEntity_other (e : Engine) (id : Nat) (f : Entity → Entity) (zid : Nat)
    (hf : ∀ ent, (f ent).eid = ent.eid) (hne : zid ≠ id) :
    zoneView (e.setEntity id f) zid = zoneView e zid := by
  unfold zoneView
  rw [getEntity_setEntity e id f hf]
  cases h : e.getEntity zid with
  | none => rfl
  | some p =>
    have heid := getEntity_found_eid e zid p h
    simp only [Option.map_some', Option.some_bind]
    rw [if_neg (by simp [heid, hne])]

theorem zoneView_setEntity_self_mapZone (e : Engine) (zid : Nat) (ent : Entity)
    (g : ZoneData → ZoneData) (hent : e.getEntity zid = some ent) :
    zoneView (e.setEntity zid (Entity.mapZone g)) zid = (zoneView e zid).map g := by
  have heid := getEntity_found_eid e zid ent hent
  unfold zoneView
  rw [getEntity_setEntity e zid _ (fun p => mapZone_eid g p), hent]
  simp [heid, mapZone_zoneData]

theorem zoneView_add_message (e : Engine) (m : String) (zid : Nat) :
    zoneView (e.add_message m) zid = zoneView e zid := rfl

theorem zoneView_apply_status_effect (e : Engine) (id : Nat) (eff : StatusEffect) (zid : Nat) :
    zoneView (Fighter.apply_status_effect e id eff) zid = zoneView e zid := by
  cases hent : e.getEntity id with
  | none =>
    unfold Fighter.apply_status_effect
    rw [hent]
  | some ent =>
    cases hAd : ent.actorData with
    | none =>
      unfold Fighter.apply_status_effect
      rw [hent]
      simp only [hAd]
    | some a =>
      rw [apply_status_effect_eq e id ent a eff hent hAd]
      split
      · rfl
      · split
        · exact zoneView_setEntity e id _ zid (fun p => mapActor_eid _ p)
            (fun p => mapActor_zoneData _ p)
        · rw [zoneView_add_message]
          exact zoneView_setEntity e id _ zid (fun p => mapActor_eid _ p)
            (fun p => mapActor_zoneData _ p)

theorem zoneView_on_actor_tick (gas : GasKind) (e : Engine) (aid : Nat) (zid : Nat) :
    zoneView (ZoneComponent.on_actor_tick gas e aid) zid = zoneView e zid := by
  cases gas with
  | hydrogenSulfide => exact zoneView_apply_status_effect e aid _ zid
  | sporeAir => exact zoneView_apply_status_effect e aid _ zid
  | nitrousOxide =>
    show zoneView
      (if aid == e.player_id then { e with player_confused_turns := 10 }
      else
        match e.aiOf aid with
        | some ai =>
          if !ai.isConfused then
            e.setEntity aid
              (Entity.mapActor (fun a => { a with ai := some (.confusedPrev ai 10) }))
          else e
        | none => e) zid = zoneView e zid
    by_cases hp : (aid == e.player_id) = true
    · rw [if_pos hp]
      exact zoneView_congr rfl zid
    · rw [if_neg hp]
      cases hai : e.aiOf aid with
      | none => rfl
      | some ai =>
        show zoneView
          (if !ai.isConfused then
            e.setEntity aid
              (Entity.mapActor (fun a => { a with ai := some (.confusedPrev ai 10) }))
          else e) zid = zoneView e zid
        by_cases hc : (!ai.isConfused) = true
        · rw [if_pos hc]
          exact zoneView_setEntity e aid _ zid (fun p => mapActor_eid _ p)
            (fun p => mapActor_zoneData _ p)
        · rw [if_neg hc]

theorem zoneView_on_update (e : Engine) (zid2 zid : Nat) :
    zoneView (Zone.on_update e zid2) zid = zoneView e zid := by
  unfold Zone.on_update
  cases hent : e.getEntity zid2 with
  | none => rfl
  | some ent =>
    show zoneView
      (if (match ent.zoneData with | some z => z.moves_around | none => false) then
        match e.randint with
        | (r, e1) =>
          let d := zoneDirs.getD (r % 8).toNat (0, 0)
          if e1.is_walkable_tile (ent.x + d.1) (ent.y + d.2) then
            if !e1.zones.any (fun z2 => z2.x == ent.x + d.1 && z2.y == ent.y + d.2) then
              e1.setEntity zid2 (fun p => p.move d.1 d.2)
            else e1
          else e1
      else e) zid = zoneView e zid
    by_cases hm : (match ent.zoneData with | some z => z.moves_around | none => false) = true
    · rw [if_pos hm]
      simp only [Engine.randint]
      split
      · split
        · exact zoneView_setEntity _ zid2 _ zid (fun p => rfl) (fun p => rfl)
        · rfl
      · rfl
    · rw [if_neg hm]

theorem zoneView_zoneActorStep (zid2 : Nat) (e : Engine) (aid : Nat) (zid : Nat) :
    zoneView (zoneActorStep zid2 e aid) zid = zoneView e zid := by
  unfold zoneActorStep
  cases h1 : e.getEntity zid2 with
  | none => rfl
  | some z =>
    cases h2 : e.getEntity aid with
    | none => rfl
    | some actor =>
      show zoneView
        (if z.x == actor.x && z.y == actor.y then
          match actor.actorData with
          | some a =>
            if a.fighter.hp > 0 then
              match z.zoneData with
              | some zd => ZoneComponent.on_actor_tick zd.gas e aid
              | none => e
            else e
          | none => e
        else e) zid = zoneView e zid
      by_cases hpos : (z.x == actor.x && z.y == actor.y) = true
      · rw [if_pos hpos]
        cases h3 : actor.actorData with
        | none => rfl
        | some a =>
          show zoneView
            (if a.fighter.hp > 0 then
              match z.zoneData with
              | some zd => ZoneComponent.on_actor_tick zd.gas e aid
              | none => e
            else e) zid = zoneView e zid
          by_cases hhp : a.fighter.hp > 0
          · rw [if_pos hhp]
            cases h4 : z.zoneData with
            | none => rfl
            | some zd => exact zoneView_on_actor_tick zd.gas e aid zid
          · rw [if_neg hhp]
      · rw [if_neg hpos]

theorem zoneView_zoneTickActorsGo (zid2 : Nat) (e : Engine) (l : List Nat) (zid : Nat) :
    zoneView (zoneTickActorsGo zid2 e l) zid = zoneView e zid := by
  induction l generalizing e with
  | nil => rfl
  | cons aid rest ih =>
    simp only [zoneTickActorsGo]
    rw [ih, zoneView_zoneActorStep]

theorem zoneView_zoneTickActors (e : Engine) (zid2 zid : Nat) :
    zoneView (zoneTickActors e zid2) zid = zoneView e zid := by
  unfold zoneTickActors
  exact zoneView_zoneTickActorsGo zid2 e _ zid


/-- Unpack `zoneView e zid = some zd`. -/
theorem zoneView_some_elim (e : Engine) (zid : Nat) (zd : ZoneData)
    (h : zoneView e zid = some zd) :
    ∃ z, e.getEntity zid = some z ∧ z.zoneData = some zd := by
  unfold zoneView at h
  cases hz : e.getEntity zid with
  | none => rw [hz] at h; cases h
  | some z =>
    rw [hz] at h
    exact ⟨z, rfl, h⟩

/-- One zone step, seen from a different zone: its view is untouched and
its membership in the removal list is unchanged. -/
theorem zoneStep_frame (e : Engine) (rem : List Nat) (zid2 zid : Nat)
    (hne : zid ≠ zid2) :
    zoneView (zoneStep e rem zid2).1 zid = zoneView e zid
    ∧ ((zid ∈ (zoneStep e rem zid2).2) ↔ zid ∈ rem) := by
  have hview : zoneView (zoneTickActors (Zone.on_update e zid2) zid2) zid = zoneView e zid := by
    rw [zoneView_zoneTickActors, zoneView_on_update]
  have hset : ∀ g : ZoneData → ZoneData,
      zoneView ((zoneTickActors (Zone.on_update e zid2) zid2).setEntity zid2
        (Entity.mapZone g)) zid = zoneView e zid := by
    intro g
    rw [zoneView_setEntity_other _ zid2 _ zid (fun p => mapZone_eid g p) hne, hview]
  cases hget : (zoneTickActors (Zone.on_update e zid2) zid2).getEntity zid2 with
  | none =>
    simp only [zoneStep, hget]
    exact ⟨hview, trivial⟩
  | some z =>
    cases hzd : z.zoneData with
    | none =>
      simp only [zoneStep, hget, hzd]
      exact ⟨hview, trivial⟩
    | some zd =>
      simp only [zoneStep, hget, hzd]
      by_cases hp : (!zd.is_permanent) = true
      · rw [if_pos hp]
        by_cases hd : zd.duration - 1 ≤ 0
        · rw [if_pos hd]
          exact ⟨hset _, by simp [List.mem_append, hne]⟩
        · rw [if_neg hd]
          exact ⟨hset _, Iff.rfl⟩
      · rw [if_neg hp]
        exact ⟨hview, Iff.rfl⟩

/-- One zone step on the zone itself. -/
theorem zoneStep_self (e : Engine) (rem : List Nat) (zid : Nat) (zd : ZoneData)
    (hview : zoneView e zid = some zd) :
    (zd.is_permanent = true →
        zoneView (zoneStep e rem zid).1 zid = some zd ∧ (zoneStep e rem zid).2 = rem)
    ∧ (zd.is_permanent = false →
        zoneView (zoneStep e rem zid).1 zid = some { zd with duration := zd.duration - 1 }
        ∧ (zoneStep e rem zid).2 = (if zd.duration - 1 ≤ 0 then rem ++ [zid] else rem)) := by
  have hview2 : zoneView (zoneTickActors (Zone.on_update e zid) zid) zid = some zd := by
    rw [zoneView_zoneTickActors, zoneView_on_update]
    exact hview
  obtain ⟨z, hget, hzd⟩ := zoneView_some_elim _ zid zd hview2
  have hset := zoneView_setEntity_self_mapZone (zoneTickActors (Zone.on_update e zid) zid)
    zid z (fun z2 => { z2 with duration := zd.duration - 1 }) hget
  have hset2 : zoneView ((zoneTickActors (Zone.on_update e zid) zid).setEntity zid
      (Entity.mapZone (fun z2 => { z2 with duration := zd.duration - 1 }))) zid
      = some { zd with duration := zd.duration - 1 } := by
    rw [hset, hview2]
    rfl
  constructor
  · intro hperm
    have hncond : ¬((!zd.is_permanent) = true) := by
      rw [hperm]
      simp
    simp only [zoneStep, hget, hzd]
    rw [if_neg hncond]
    exact ⟨hview2, rfl⟩
  · intro hperm
    have hcond : (!zd.is_permanent) = true := by
      rw [hperm]
      decide
    simp only [zoneStep, hget, hzd]
    rw [if_pos hcond]
    by_cases hd : zd.duration - 1 ≤ 0
    · rw [if_pos hd]
      exact ⟨hset2, by rw [if_pos hd]⟩
    · rw [if_neg hd]
      exact ⟨hset2, by rw [if_neg hd]⟩

theorem zonesGo_frame (zid : Nat) : ∀ (ids : List Nat) (e : Engine) (rem : List Nat),
    zid ∉ ids →
    zoneView (zonesGo e rem ids).1 zid = zoneView e zid
    ∧ ((zid ∈ (zonesGo e rem ids).2) ↔ zid ∈ rem) := by
  intro ids
  induction ids with
  | nil => intro e rem h; exact ⟨rfl, Iff.rfl⟩
  | cons zid2 rest ih =>
    intro e rem h
    have hne : zid ≠ zid2 := by
      intro hcontra
      exact h (by simp [hcontra])
    have hrest : zid ∉ rest := fun hc => h (by simp [hc])
    have hstep := zoneStep_frame e rem zid2 zid hne
    have hrec := ih (zoneStep e rem zid2).1 (zoneStep e rem zid2).2 hrest
    simp only [zonesGo]
    exact ⟨by rw [hrec.1, hstep.1], by rw [hrec.2, hstep.2]⟩

theorem zonesGo_perm (zid : Nat) (zd : ZoneData) (hperm : zd.is_permanent = true) :
    ∀ (ids : List Nat) (e : Engine) (rem : List Nat),
    zoneView e zid = some zd → zid ∉ rem →
    zoneView (zonesGo e rem ids).1 zid = some zd
    ∧ zid ∉ (zonesGo e rem ids).2 := by
  intro ids
  induction ids with
  | nil => intro e rem hview hrem; exact ⟨hview, hrem⟩
  | cons zid2 rest ih =>
    intro e rem hview hrem
    by_cases heq : zid = zid2
    · subst heq
      have hstep := (zoneStep_self e rem zid zd hview).1 hperm
      simp only [zonesGo]
      exact ih _ _ hstep.1 (by rw [hstep.2]; exact hrem)
    · have hstep := zoneStep_frame e rem zid2 zid heq
      simp only [zonesGo]
      exact ih _ _ (by rw [hstep.1]; exact hview) (fun hc => hrem (hstep.2.mp hc))

theorem zonesGo_append (e : Engine) (rem : List Nat) (l1 l2 : List Nat) :
    zonesGo e rem (l1 ++ l2)
      = zonesGo (zonesGo e rem l1).1 (zonesGo e rem l1).2 l2 := by
  induction l1 generalizing e rem with
  | nil => rfl
  | cons zid2 rest ih =>
    simp only [List.cons_append, zonesGo]
    exact ih _ _

theorem find?_filterRem_keep (l : List Entity) (rem : List Nat) (zid : Nat) (h : zid ∉ rem) :
    (l.filter (fun ent => !(rem.contains ent.eid))).find? (fun ent => ent.eid == zid)
      = l.find? (fun ent => ent.eid == zid) := by
  induction l with
  | nil => rfl
  | cons x xs ih =>
    by_cases hk : x.eid ∈ rem
    · have hc1 : rem.contains x.eid = true := List.elem_eq_true_of_mem hk
      have hxz : ¬((x.eid == zid) = true) := by
        intro hc
        have hxe : x.eid = zid := by simpa using hc
        rw [hxe] at hk
        exact h hk
      have hcondF : ¬((!(rem.contains x.eid)) = true) := by
        rw [hc1]
        decide
      have hxzF : (x.eid == zid) = false := by
        cases hb : (x.eid == zid)
        · rfl
        · exact absurd hb hxz
      rw [List.filter_cons, if_neg hcondF, List.find?_cons]
      simp only [hxzF]
      exact ih
    · have hc0 : rem.contains x.eid = false := by
        cases hcc : rem.contains x.eid
        · rfl
        · exact absurd (List.mem_of_elem_eq_true hcc) hk
      have hcondT : (!(rem.contains x.eid)) = true := by
        rw [hc0]
        decide
      rw [List.filter_cons, if_pos hcondT]
      rw [List.find?_cons, List.find?_cons]
      cases hb : (x.eid == zid)
      · simp only [hb]
        exact ih
      · simp only [hb]

theorem find?_filterRem_drop (l : List Entity) (rem : List Nat) (zid : Nat) (h : zid ∈ rem) :
    (l.filter (fun ent => !(rem.contains ent.eid))).find? (fun ent => ent.eid == zid)
      = none := by
  rw [List.find?_eq_none]
  intro x hx
  rw [List.mem_filter] at hx
  intro hxz
  have hxe : x.eid = zid := by simpa using hxz
  have hmem : x.eid ∈ rem := by
    rw [hxe]
    exact h
  have hc1 : rem.contains x.eid = true := List.elem_eq_true_of_mem hmem
  have hx2 := hx.2
  rw [hc1] at hx2
  exact absurd hx2 (by decide)


theorem zoneView_filterRem (e : Engine) (rem : List Nat) (zid : Nat) (h : zid ∉ rem) :
    zoneView { e with entities := e.entities.filter (fun ent => !(rem.contains ent.eid)) } zid
      = zoneView e zid := by
  unfold zoneView Engine.getEntity
  rw [find?_filterRem_keep _ rem zid h]

theorem getEntity_filterRem_none (e : Engine) (rem : List Nat) (zid : Nat) (h : zid ∈ rem) :
    ({ e with entities := e.entities.filter (fun ent => !(rem.contains ent.eid)) } : Engine).getEntity zid
      = none := by
  unfold Engine.getEntity
  exact find?_filterRem_drop _ rem zid h

/-- One whole `handle_zones` pass leaves a permanent zone untouched. -/
theorem handle_zones_perm_one (e : Engine) (zid : Nat) (zd : ZoneData)
    (hperm : zd.is_permanent = true) (hview : zoneView e zid = some zd) :
    zoneView e.handle_zones zid = some zd := by
  have hgo := zonesGo_perm zid zd hperm (e.zones.map (fun z => z.eid)) e [] hview
    (List.not_mem_nil zid)
  simp only [Engine.handle_zones]
  rw [zoneView_filterRem _ _ zid hgo.2]
  exact hgo.1

/-- One whole `handle_zones` pass on a non-permanent zone: the duration is
decremented by one, and the zone entity is removed exactly when the new
duration reaches 0. -/
theorem handle_zones_nonperm (e : Engine) (zid : Nat) (zd : ZoneData)
    (hnodup : (e.entities.map Entity.eid).Nodup)
    (hperm : zd.is_permanent = false) (hview : zoneView e zid = some zd) :
    (zd.duration - 1 ≤ 0 → (e.handle_zones).getEntity zid = none)
    ∧ (¬(zd.duration - 1 ≤ 0) →
        zoneView e.handle_zones zid = some { zd with duration := zd.duration - 1 }) := by
  obtain ⟨z, hget, hzd⟩ := zoneView_some_elim e zid zd hview
  have hzeid : z.eid = zid := getEntity_found_eid e zid z hget
  have hzmem : z ∈ e.entities := List.mem_of_find?_eq_some hget
  have hzzone : z ∈ e.zones := by
    rw [Engine.zones, List.mem_filter]
    refine ⟨hzmem, ?_⟩
    rw [hzd]
    rfl
  have hmem : zid ∈ e.zones.map (fun z2 => z2.eid) := by
    rw [List.mem_map]
    exact ⟨z, hzzone, hzeid⟩
  have hsub : List.Sublist (e.zones.map (fun z2 => z2.eid)) (e.entities.map Entity.eid) :=
    List.Sublist.map _ (List.filter_sublist e.entities)
  have hidsnodup : (e.zones.map (fun z2 => z2.eid)).Nodup := List.Nodup.sublist hsub hnodup
  obtain ⟨l1, l2, hids⟩ := List.append_of_mem hmem
  rw [hids] at hidsnodup
  have hdisj := List.disjoint_of_nodup_append hidsnodup
  have hn1 : zid ∉ l1 := fun hc => hdisj hc (List.mem_cons_self zid l2)
  have hn2 : zid ∉ l2 := by
    have hcons : (zid :: l2).Nodup :=
      List.Nodup.sublist (List.sublist_append_right l1 (zid :: l2)) hidsnodup
    exact (List.nodup_cons.mp hcons).1
  have hA := zonesGo_frame zid l1 e [] hn1
  have hAview : zoneView (zonesGo e [] l1).1 zid = some zd := by
    rw [hA.1]
    exact hview
  have hArem : zid ∉ (zonesGo e [] l1).2 :=
    fun hc => absurd (hA.2.mp hc) (List.not_mem_nil zid)
  have hB := (zoneStep_self (zonesGo e [] l1).1 (zonesGo e [] l1).2 zid zd hAview).2 hperm
  have hC := zonesGo_frame zid l2
    (zoneStep (zonesGo e [] l1).1 (zonesGo e [] l1).2 zid).1
    (zoneStep (zonesGo e [] l1).1 (zonesGo e [] l1).2 zid).2 hn2
  have htot : zonesGo e [] (l1 ++ zid :: l2)
      = zonesGo (zoneStep (zonesGo e [] l1).1 (zonesGo e [] l1).2 zid).1
          (zoneStep (zonesGo e [] l1).1 (zonesGo e [] l1).2 zid).2 l2 := by
    rw [zonesGo_append]
    rfl
  constructor
  · intro hd
    have hmemB : zid ∈ (zoneStep (zonesGo e [] l1).1 (zonesGo e [] l1).2 zid).2 := by
      rw [hB.2, if_pos hd]
      simp
    have hmemP : zid ∈ (zonesGo e [] (e.zones.map (fun z2 => z2.eid))).2 := by
      rw [hids, htot]
      exact hC.2.mpr hmemB
    simp only [Engine.handle_zones]
    exact getEntity_filterRem_none _ _ zid hmemP
  · intro hd
    have hmemB : zid ∉ (zoneStep (zonesGo e [] l1).1 (zonesGo e [] l1).2 zid).2 := by
      rw [hB.2, if_neg hd]
      exact hArem
    have hmemP : zid ∉ (zonesGo e [] (e.zones.map (fun z2 => z2.eid))).2 := by
      rw [hids, htot]
      exact fun hc => hmemB (hC.2.mp hc)
    simp only [Engine.handle_zones]
    rw [zoneView_filterRem _ _ zid hmemP, hids, htot, hC.1]
    exact hB.1

/-- C7: a permanent zone is never decremented or removed over any number of
`handle_zones` ticks; a non-permanent zone's duration decreases by 1 each
tick and the zone entity is removed from the entity set exactly on the tick
its duration reaches 0 (removal deferred to after the iteration); on the
concrete engine `E7` the duration-1 hydrogen-sulfide zone still applies its
poison effect to the co-located slime mold on its final tick and is then
removed. -/
theorem C7_zone_duration :
    (∀ (e : Engine) (zid : Nat) (zd : ZoneData) (k : Nat),
        zd.is_permanent = true → zoneView e zid = some zd →
        zoneView (Engine.handle_zones^[k] e) zid = some zd)
    ∧ (∀ (e : Engine) (zid : Nat) (zd : ZoneData),
        (e.entities.map Entity.eid).Nodup →
        zd.is_permanent = false → zoneView e zid = some zd →
        ((zd.duration - 1 ≤ 0 → (e.handle_zones).getEntity zid = none)
          ∧ (¬(zd.duration - 1 ≤ 0) →
              zoneView e.handle_zones zid = some { zd with duration := zd.duration - 1 })))
    ∧ (statusListOf E7.handle_zones 2 = [⟨.poisoned, 7, 2, (0, 0)⟩]
        ∧ E7.handle_zones.getEntity 1 = none) := by
  refine ⟨?_, ?_, ?_, ?_⟩
  · intro e zid zd k hperm hview
    induction k with
    | zero => exact hview
    | succ n ih =>
      rw [Function.iterate_succ_apply' Engine.handle_zones n e]
      exact handle_zones_perm_one _ zid zd hperm ih
  · intro e zid zd hnodup hperm hview
    exact handle_zones_nonperm e zid zd hnodup hperm hview
  · decide
  · decide

/-- Witness: the permanent clause at `E7p` over 3 ticks, and the
non-permanent removal clause at `E7` (duration 1, so `1 - 1 ≤ 0`). -/
theorem C7_zone_duration_witness :
    ((E7.entities.map Entity.eid).Nodup
      ∧ zoneView E7p 1 = some ⟨5, true, false, .hydrogenSulfide⟩
      ∧ zoneView E7 1 = some ⟨1, false, false, .hydrogenSulfide⟩)
    ∧ zoneView (Engine.handle_zones^[3] E7p) 1 = some ⟨5, true, false, .hydrogenSulfide⟩
    ∧ E7.handle_zones.getEntity 1 = none :=
  ⟨⟨by decide, by decide, by decide⟩,
    C7_zone_duration.1 E7p 1 ⟨5, true, false, .hydrogenSulfide⟩ 3 (by decide) (by decide),
    (C7_zone_duration.2.1 E7 1 ⟨1, false, false, .hydrogenSulfide⟩ (by decide) (by decide)
      (by decide)).1 (by decide)⟩

end PyRL
